import Mathlib

/-!
Verification of the STM32/Stellaris peripheral model (src/hw/stm32.c): a
shallow embedding of the general-purpose timer module (GPTM), the system
controller (SSYS), the I2C master controller and the ADC sample engine,
together with theorems about the register-level behaviour of each.

Machine integers are modelled as `Nat` with explicit truncation modulo
2^32 at every store into a `uint32_t` field; the virtual clock is `Int`
(nanoseconds, as `int64_t` in the source).  Fatal `hw_error` paths are
modelled by `Option`: `none` means the emulated peripheral aborted.
-/

namespace Stm32

/-- Truncation to 32 bits, matching a store into a C `uint32_t`. -/
def u32 (x : Nat) : Nat := x % 4294967296

/-- Bitwise complement of `x` as observed through a 32-bit store:
`0xffffffff ^^^ u32 x`, used for C expressions of the form `a &= ~x`. -/
def compl32 (x : Nat) : Nat := 4294967295 ^^^ u32 x

/-- Modelled from the spec: the virtual clock collaborator counts
nanoseconds, so the fixed 1 Hz RTC tick of one virtual second is
1000000000 time units.  The helper `get_ticks_per_sec` itself is outside
this repository. -/
def get_ticks_per_sec : Int := 1000000000

/-! ## General purpose timer module (GPTM) -/

/-- State of `gptm_state`.  The two-element C arrays are split into
explicit `0`/`1` fields.  `sched0`/`sched1` model the two `QEMUTimer`
handles: `some t` means a callback is scheduled at absolute virtual time
`t`, `none` means no pending callback.  `irqLevel` is the level last
driven onto the interrupt output line, and `triggerPulses` counts pulses
emitted on the ADC trigger output. -/
structure GptmState where
  config : Nat
  mode0 : Nat
  mode1 : Nat
  control : Nat
  state : Nat
  mask : Nat
  load0 : Nat
  load1 : Nat
  match0 : Nat
  match1 : Nat
  prescale0 : Nat
  prescale1 : Nat
  match_prescale0 : Nat
  match_prescale1 : Nat
  rtc : Nat
  tick0 : Int
  tick1 : Int
  sched0 : Option Int
  sched1 : Option Int
  irqLevel : Bool
  triggerPulses : Nat
deriving DecidableEq

/-- `gptm_update_irq`: drive the interrupt line to `(state & mask) != 0`. -/
def gptm_update_irq (s : GptmState) : GptmState :=
  { s with irqLevel := s.state &&& s.mask != 0 }

/-- `gptm_stop`: `qemu_del_timer` on channel `n`. -/
def gptm_stop (s : GptmState) (n : Nat) : GptmState :=
  if n = 0 then { s with sched0 := none } else { s with sched1 := none }

/-- The combined effect of `s->tick[n] = tick; qemu_mod_timer(s->timer[n], tick)`. -/
def gptm_set_tick (s : GptmState) (n : Nat) (t : Int) : GptmState :=
  if n = 0 then { s with tick0 := t, sched0 := some t }
  else { s with tick1 := t, sched1 := some t }

/-- `gptm_reload`: compute the next deadline for channel `n`.  `reset`
re-arms from `now`, otherwise from the channel's previous deadline.
`none` models the `hw_error` on unimplemented 16-bit modes. -/
def gptm_reload (scale : Int) (now : Int) (s : GptmState) (n : Nat) (reset : Bool) :
    Option GptmState :=
  let tick : Int := if reset then now else if n = 0 then s.tick0 else s.tick1
  if s.config = 0 then
    let count : Nat := u32 (s.load0 ||| u32 (s.load1 <<< 16))
    some (gptm_set_tick s n (tick + (count : Int) * scale))
  else if s.config = 1 then
    some (gptm_set_tick s n (tick + get_ticks_per_sec))
  else if (if n = 0 then s.mode0 else s.mode1) = 0xa then
    some (gptm_set_tick s n tick)
  else
    none

/-- `gptm_tick`: the timer callback body for channel `n`. -/
def gptm_tick (scale : Int) (s : GptmState) (n : Nat) : Option GptmState :=
  if s.config = 0 then
    let s1 := { s with state := s.state ||| 1 }
    let s2 := if s1.control &&& 0x20 != 0 then
        { s1 with triggerPulses := s1.triggerPulses + 1 }
      else s1
    let r := if s2.mode0 &&& 1 != 0 then
        some { s2 with control := s2.control &&& 0xfffffffe }
      else
        gptm_reload scale 0 s2 0 false
    r.map gptm_update_irq
  else if s.config = 1 then
    let s1 := { s with rtc := u32 (s.rtc + 1) }
    let m := u32 (s1.match0 ||| u32 (s1.match1 <<< 16))
    let s2 := if s1.rtc > m then { s1 with rtc := 0 } else s1
    let s3 := if s2.rtc = 0 then { s2 with state := s2.state ||| 8 } else s2
    (gptm_reload scale 0 s3 0 false).map gptm_update_irq
  else if (if n = 0 then s.mode0 else s.mode1) = 0xa then
    some (gptm_update_irq s)
  else
    none

/-- Modelled from the spec: the virtual-clock collaborator fires a
scheduled deadline, so the handle is no longer pending when the callback
body (`gptm_tick`) runs. -/
def gptm_fire (scale : Int) (s : GptmState) (n : Nat) : Option GptmState :=
  gptm_tick scale
    (if n = 0 then { s with sched0 := none } else { s with sched1 := none }) n

/-- `gptm_write`: the register write entry point.  `none` models
`hw_error` (bad offset, or an unimplemented mode reached via reload). -/
def gptm_write (scale : Int) (now : Int) (s : GptmState) (offset : Nat) (value : Nat) :
    Option GptmState :=
  let r : Option GptmState :=
    if offset = 0x00 then some { s with config := u32 value }
    else if offset = 0x04 then some { s with mode0 := u32 value }
    else if offset = 0x08 then some { s with mode1 := u32 value }
    else if offset = 0x0c then
      let oldval := s.control
      let s1 := { s with control := u32 value }
      let r1 : Option GptmState :=
        if (oldval ^^^ value) &&& 1 ≠ 0 then
          if value &&& 1 ≠ 0 then gptm_reload scale now s1 0 true
          else some (gptm_stop s1 0)
        else some s1
      match r1 with
      | none => none
      | some s2 =>
        if (oldval ^^^ value) &&& 0x100 ≠ 0 ∧ 4 ≤ s2.config then
          if value &&& 0x100 ≠ 0 then gptm_reload scale now s2 1 true
          else some (gptm_stop s2 1)
        else some s2
    else if offset = 0x18 then some (gptm_update_irq { s with mask := value &&& 0x77 })
    else if offset = 0x24 then some { s with state := s.state &&& compl32 value }
    else if offset = 0x28 then
      let s1 := { s with load0 := value &&& 0xffff }
      some (if s1.config < 4 then { s1 with load1 := u32 (value >>> 16) } else s1)
    else if offset = 0x2c then some { s with load1 := value &&& 0xffff }
    else if offset = 0x30 then
      let s1 := { s with match0 := value &&& 0xffff }
      some (if s1.config < 4 then { s1 with match1 := u32 (value >>> 16) } else s1)
    else if offset = 0x34 then some { s with match1 := u32 (value >>> 16) }
    else if offset = 0x38 then some { s with prescale0 := u32 value }
    else if offset = 0x3c then some { s with prescale1 := u32 value }
    else if offset = 0x40 then some { s with match_prescale0 := u32 value }
    else if offset = 0x44 then some { s with match_prescale0 := u32 value }
    else none
  r.map gptm_update_irq

/-! ## System controller (SSYS) -/

/-- Modelled from the spec: PLL enable request bit of the raw
clock-control register.  The defining header `stm32f2xx_defines.h` is not
under src; the standard STM32F2xx layout places PLLON at bit 24. -/
def RCC_CR_PLLON : Nat := 0x01000000

/-- Modelled from the spec: PLL locked/ready bit, bit 25 of the raw
clock-control register in the standard STM32F2xx layout. -/
def RCC_CR_PLLRDY : Nat := 0x02000000

/-- System-clock select field of the clock-config register, mask 0x3 per
the source comment. -/
def RCC_CFGR_SW : Nat := 0x3

/-- System-clock status field of the clock-config register, mask 0xc per
the source comment. -/
def RCC_CFGR_SWS : Nat := 0xc

def DID0_VER_MASK : Nat := 0x70000000
def DID0_VER_0 : Nat := 0x00000000
def DID0_VER_1 : Nat := 0x10000000
def DID0_CLASS_MASK : Nat := 0x00FF0000
def DID0_CLASS_SANDSTORM : Nat := 0x00000000
def DID0_CLASS_FURY : Nat := 0x00010000

/-- State of `ssys_state`.  `did0` is the immutable board identity.  The
global `system_clock_scale` consumed by the timer module is carried here
as `scale` (the source stores it in a process-wide `int`). -/
structure SsysState where
  pborctl : Nat
  ldopctl : Nat
  int_status : Nat
  int_mask : Nat
  resc : Nat
  rcc : Nat
  rcc_cr : Nat
  rcc_cfgr : Nat
  rcc_anything_else : Nat
  rcc2 : Nat
  rcgc0 : Nat
  rcgc1 : Nat
  rcgc2 : Nat
  scgc0 : Nat
  scgc1 : Nat
  scgc2 : Nat
  dcgc0 : Nat
  dcgc1 : Nat
  dcgc2 : Nat
  clkvclr : Nat
  ldoarst : Nat
  did0 : Nat
  scale : Int
  irqLevel : Bool
deriving DecidableEq

/-- `ssys_update`: drive the interrupt line to `(int_status & int_mask) != 0`. -/
def ssys_update (s : SsysState) : SsysState :=
  { s with irqLevel := s.int_status &&& s.int_mask != 0 }

/-- `ssys_use_rcc2`: bit 31 of `rcc2` selects the alternate register. -/
def ssys_use_rcc2 (s : SsysState) : Bool :=
  (s.rcc2 >>> 31) &&& 0x1 == 1

/-- `ssys_calculate_system_clock`: recompute the derived clock scale. -/
def ssys_calculate_system_clock (s : SsysState) : SsysState :=
  if ssys_use_rcc2 s then
    { s with scale := 5 * ((((s.rcc2 >>> 23) &&& 0x3f : Nat) : Int) + 1) }
  else
    { s with scale := 5 * ((((s.rcc >>> 23) &&& 0xf : Nat) : Int) + 1) }

/-- `ssys_board_class` (renamed): decode the silicon class from `did0`;
`none` models the `hw_error` on an unknown class. -/
def ssys_board_kind (s : SsysState) : Option Nat :=
  if s.did0 &&& DID0_VER_MASK = DID0_VER_0 then some DID0_CLASS_SANDSTORM
  else if s.did0 &&& DID0_VER_MASK = DID0_VER_1 ∧
      (s.did0 &&& DID0_CLASS_MASK = DID0_CLASS_SANDSTORM ∨
       s.did0 &&& DID0_CLASS_MASK = DID0_CLASS_FURY) then
    some (s.did0 &&& DID0_CLASS_MASK)
  else none

/-- `ssys_reset`: documented hardware defaults; `rcc2` depends on the
board class decoded from `did0`. -/
def ssys_reset (s : SsysState) : Option SsysState :=
  match ssys_board_kind s with
  | none => none
  | some k =>
    let s1 := { s with pborctl := 0x7ffd, rcc := 0x078e3ac0 }
    let s2 := if k = DID0_CLASS_SANDSTORM then { s1 with rcc2 := 0 }
      else { s1 with rcc2 := 0x07802810 }
    some (ssys_calculate_system_clock { s2 with rcgc0 := 1, scgc0 := 1, dcgc0 := 1 })

/-- `ssys_write`: the register write entry point.  Unknown offsets land
in the catch-all `rcc_anything_else` bucket, exactly as the source does. -/
def ssys_write (s : SsysState) (offset : Nat) (value : Nat) : SsysState :=
  let s1 :=
    if offset = 0x00 then
      let t := { s with rcc_cr := u32 value }
      if t.rcc_cr ||| RCC_CR_PLLON ≠ 0 then
        { t with rcc_cr := t.rcc_cr ||| RCC_CR_PLLRDY }
      else t
    else if offset = 0x08 then
      let t := { s with rcc_cfgr := u32 value &&& compl32 RCC_CFGR_SWS }
      { t with rcc_cfgr := t.rcc_cfgr ||| ((t.rcc_cfgr &&& RCC_CFGR_SW) <<< 2) }
    else
      { s with rcc_anything_else := u32 value }
  ssys_update s1

/-- The divisor field of the spec's clock-scale invariant: a 6-bit field
of `rcc2` when its select bit is set, else a 4-bit field of `rcc`. -/
def ssys_divisor (s : SsysState) : Nat :=
  if ssys_use_rcc2 s then (s.rcc2 >>> 23) &&& 0x3f else (s.rcc >>> 23) &&& 0xf

/-- The spec's SSYS invariant: `systemClockScale = 5 * (divisorField + 1)`. -/
def ssys_invariant (s : SsysState) : Prop :=
  s.scale = 5 * ((ssys_divisor s : Int) + 1)

/-! ## I2C master controller -/

def STELLARIS_I2C_MCS_BUSY : Nat := 0x01
def STELLARIS_I2C_MCS_ERROR : Nat := 0x02
def STELLARIS_I2C_MCS_ADRACK : Nat := 0x04
def STELLARIS_I2C_MCS_DATACK : Nat := 0x08
def STELLARIS_I2C_MCS_ARBLST : Nat := 0x10
def STELLARIS_I2C_MCS_IDLE : Nat := 0x20
def STELLARIS_I2C_MCS_BUSBSY : Nat := 0x40

/-- State of `stm32_i2c_state` (registers and the interrupt line level). -/
structure I2cState where
  msa : Nat
  mcs : Nat
  mdr : Nat
  mtpr : Nat
  mimr : Nat
  mris : Nat
  mcr : Nat
  irqLevel : Bool
deriving DecidableEq

/-- Modelled from the spec: the shared-bus collaborator of the I2C
controller (`acquire`, `isBusy`, `sendByte`, `recvByte`, `release` of
spec section 6); the bus object itself lives outside this repository.
`heldByOther` means another master owns the bus, `heldBySelf` that this
controller has acquired it. -/
structure I2CBus where
  heldByOther : Bool
  heldBySelf : Bool
  recvVal : Nat
  sent : List Nat
deriving DecidableEq

/-- Modelled from the spec: `acquire(address, isRead) → success`.  The
result `true` is the C non-zero return of `i2c_start_transfer`, i.e.
failure / arbitration loss, which happens exactly when the bus is held by
another master; on success the bus becomes held by this controller. -/
def i2c_start_transfer (b : I2CBus) (_addr : Nat) (_isRecv : Nat) : Bool × I2CBus :=
  if b.heldByOther then (true, b)
  else (false, { b with heldBySelf := true })

/-- Modelled from the spec: `isBusy()`. -/
def i2c_bus_busy (b : I2CBus) : Bool := b.heldByOther || b.heldBySelf

/-- Modelled from the spec: `release()`. -/
def i2c_end_transfer (b : I2CBus) : I2CBus := { b with heldBySelf := false }

/-- Modelled from the spec: `recvByte() → value`. -/
def i2c_recv (b : I2CBus) : Nat × I2CBus := (b.recvVal, b)

/-- Modelled from the spec: `sendByte(value)`. -/
def i2c_send (b : I2CBus) (v : Nat) : I2CBus := { b with sent := b.sent ++ [v] }

/-- `stm32_i2c_update`: drive the interrupt line to `(mris & mimr) != 0`. -/
def stm32_i2c_update (s : I2cState) : I2cState :=
  { s with irqLevel := s.mris &&& s.mimr != 0 }

/-- The start-attempt phase of an MCS write: grab the bus when the value
requests a start and the controller is not already mid-transfer. -/
def i2c_mcs_start (s : I2cState) (b : I2CBus) (value : Nat) : I2cState × I2CBus :=
  if value &&& 2 ≠ 0 ∧ s.mcs &&& STELLARIS_I2C_MCS_BUSBSY = 0 then
    let r := i2c_start_transfer b (s.msa >>> 1) (s.msa &&& 1)
    if r.fst then ({ s with mcs := s.mcs ||| STELLARIS_I2C_MCS_ARBLST }, r.snd)
    else
      ({ s with mcs := (s.mcs &&& compl32 STELLARIS_I2C_MCS_ARBLST) |||
          STELLARIS_I2C_MCS_BUSBSY }, r.snd)
  else (s, b)

/-- The body of the MCS (control/status) register write, without the
final interrupt update.  The `Nat` result counts byte transfers performed
during the operation. -/
def i2c_write_mcs (s : I2cState) (b : I2CBus) (value : Nat) : I2cState × I2CBus × Nat :=
  if s.mcr &&& 0x10 = 0 then (s, b, 0)
  else
    let p := i2c_mcs_start s b value
    let s1 := p.fst
    let b1 := p.snd
    if i2c_bus_busy b1 = false ∨ s1.mcs &&& STELLARIS_I2C_MCS_BUSBSY = 0 then
      ({ s1 with mcs := s1.mcs ||| STELLARIS_I2C_MCS_ERROR }, b1, 0)
    else
      let s2 := { s1 with mcs := s1.mcs &&& compl32 STELLARIS_I2C_MCS_ERROR }
      let q : I2cState × I2CBus × Nat :=
        if value &&& 1 ≠ 0 then
          if s2.msa &&& 1 ≠ 0 then
            let rv := i2c_recv b1
            ({ s2 with mdr := rv.fst &&& 0xff, mris := s2.mris ||| 1 }, rv.snd, 1)
          else
            ({ s2 with mris := s2.mris ||| 1 }, i2c_send b1 s2.mdr, 1)
        else (s2, b1, 0)
      if value &&& 4 ≠ 0 then
        ({ q.fst with mcs := q.fst.mcs &&& compl32 STELLARIS_I2C_MCS_BUSBSY },
         i2c_end_transfer q.snd.fst, q.snd.snd)
      else q

/-- `stm32_i2c_write`: the register write entry point.  `none` models
`hw_error` (bad offset, loopback or slave-mode request). -/
def stm32_i2c_write (s : I2cState) (b : I2CBus) (offset : Nat) (value : Nat) :
    Option (I2cState × I2CBus × Nat) :=
  let r : Option (I2cState × I2CBus × Nat) :=
    if offset = 0x00 then some ({ s with msa := value &&& 0xff }, b, 0)
    else if offset = 0x04 then some (i2c_write_mcs s b value)
    else if offset = 0x08 then some ({ s with mdr := value &&& 0xff }, b, 0)
    else if offset = 0x0c then some ({ s with mtpr := value &&& 0xff }, b, 0)
    else if offset = 0x10 then some ({ s with mimr := 1 }, b, 0)
    else if offset = 0x1c then some ({ s with mris := s.mris &&& compl32 value }, b, 0)
    else if offset = 0x20 then
      if value &&& 1 ≠ 0 ∨ value &&& 0x20 ≠ 0 then none
      else some ({ s with mcr := value &&& 0x31 }, b, 0)
    else none
  r.map (fun t => (stm32_i2c_update t.fst, t.snd.fst, t.snd.snd))

/-! ## ADC sample engine -/

def STELLARIS_ADC_FIFO_EMPTY : Nat := 0x0100
def STELLARIS_ADC_FIFO_FULL : Nat := 0x1000

/-- One sequencer's FIFO: the packed head/tail/empty/full state word and
the 16-entry data array (a 16-element list). -/
structure AdcFifo where
  state : Nat
  data : List Nat
deriving DecidableEq

/-- State of `stm32_adc_state`.  The four-element C arrays are split
into explicit per-sequencer fields; `irq0`..`irq3` are the levels last
driven onto the four interrupt output lines. -/
structure AdcState where
  actss : Nat
  ris : Nat
  im : Nat
  emux : Nat
  ostat : Nat
  ustat : Nat
  sspri : Nat
  sac : Nat
  fifo0 : AdcFifo
  fifo1 : AdcFifo
  fifo2 : AdcFifo
  fifo3 : AdcFifo
  ssmux0 : Nat
  ssmux1 : Nat
  ssmux2 : Nat
  ssmux3 : Nat
  ssctl0 : Nat
  ssctl1 : Nat
  ssctl2 : Nat
  ssctl3 : Nat
  noise : Nat
  irq0 : Bool
  irq1 : Bool
  irq2 : Bool
  irq3 : Bool
deriving DecidableEq

/-- Read of the C array cell `s->fifo[n]` (callers use `n < 4`). -/
def AdcState.fifoAt (s : AdcState) (n : Nat) : AdcFifo :=
  if n = 0 then s.fifo0 else if n = 1 then s.fifo1 else if n = 2 then s.fifo2
  else s.fifo3

/-- Write of the C array cell `s->fifo[n]` (callers use `n < 4`). -/
def AdcState.setFifo (s : AdcState) (n : Nat) (f : AdcFifo) : AdcState :=
  if n = 0 then { s with fifo0 := f } else if n = 1 then { s with fifo1 := f }
  else if n = 2 then { s with fifo2 := f } else { s with fifo3 := f }

/-- Write of the C array cell `s->ssmux[n]`. -/
def AdcState.setSsmux (s : AdcState) (n : Nat) (v : Nat) : AdcState :=
  if n = 0 then { s with ssmux0 := v } else if n = 1 then { s with ssmux1 := v }
  else if n = 2 then { s with ssmux2 := v } else { s with ssmux3 := v }

/-- Write of the C array cell `s->ssctl[n]`. -/
def AdcState.setSsctl (s : AdcState) (n : Nat) (v : Nat) : AdcState :=
  if n = 0 then { s with ssctl0 := v } else if n = 1 then { s with ssctl1 := v }
  else if n = 2 then { s with ssctl2 := v } else { s with ssctl3 := v }

/-- `stm32_adc_fifo_read`: pop one sample from sequencer `n`'s FIFO; on
an empty FIFO set the underflow bit and return the stale slot without
advancing the tail. -/
def stm32_adc_fifo_read (s : AdcState) (n : Nat) : AdcState × Nat :=
  let f := s.fifoAt n
  let tail := f.state &&& 0xf
  if f.state &&& STELLARIS_ADC_FIFO_EMPTY ≠ 0 then
    ({ s with ustat := s.ustat ||| (1 <<< n) }, f.data.getD tail 0)
  else
    let st1 := (f.state &&& compl32 0xf) ||| ((tail + 1) &&& 0xf)
    let st2 := st1 &&& compl32 STELLARIS_ADC_FIFO_FULL
    let st3 := if tail + 1 = (st2 >>> 4) &&& 0xf then st2 ||| STELLARIS_ADC_FIFO_EMPTY
      else st2
    (s.setFifo n { f with state := st3 }, f.data.getD tail 0)

/-- `stm32_adc_fifo_write`: push one sample into sequencer `n`'s FIFO; on
a full FIFO set the overflow bit and drop the sample. -/
def stm32_adc_fifo_write (s : AdcState) (n : Nat) (value : Nat) : AdcState :=
  let f := s.fifoAt n
  let head := (f.state >>> 4) &&& 0xf
  if f.state &&& STELLARIS_ADC_FIFO_FULL ≠ 0 then
    { s with ostat := s.ostat ||| (1 <<< n) }
  else
    let d := f.data.set head value
    let head2 := (head + 1) &&& 0xf
    let st1 := f.state &&& compl32 STELLARIS_ADC_FIFO_EMPTY
    let st2 := (st1 &&& compl32 0xf0) ||| (head2 <<< 4)
    let st3 := if st2 &&& 0xf = head2 then st2 ||| STELLARIS_ADC_FIFO_FULL else st2
    s.setFifo n { state := st3, data := d }

/-- The effect of one FIFO push on the sequencer's own FIFO record
(result FIFO, overflow flag); restatement of `stm32_adc_fifo_write` at
the level of a single `AdcFifo`, used to phrase theorems. -/
def fifoPush (f : AdcFifo) (value : Nat) : AdcFifo × Bool :=
  let head := (f.state >>> 4) &&& 0xf
  if f.state &&& STELLARIS_ADC_FIFO_FULL ≠ 0 then (f, true)
  else
    let d := f.data.set head value
    let head2 := (head + 1) &&& 0xf
    let st1 := f.state &&& compl32 STELLARIS_ADC_FIFO_EMPTY
    let st2 := (st1 &&& compl32 0xf0) ||| (head2 <<< 4)
    let st3 := if st2 &&& 0xf = head2 then st2 ||| STELLARIS_ADC_FIFO_FULL else st2
    ({ state := st3, data := d }, false)

/-- `stm32_adc_update`: drive the four interrupt lines, line `n` to
`(ris & im & (1 << n)) != 0`. -/
def stm32_adc_update (s : AdcState) : AdcState :=
  { s with
    irq0 := s.ris &&& s.im &&& 1 != 0
    irq1 := s.ris &&& s.im &&& 2 != 0
    irq2 := s.ris &&& s.im &&& 4 != 0
    irq3 := s.ris &&& s.im &&& 8 != 0 }

/-- One iteration of the `stm32_adc_trigger` loop for sequencer `n`. -/
def adc_trigger_step (s : AdcState) (n : Nat) : AdcState :=
  if s.actss &&& (1 <<< n) = 0 then s
  else if (s.emux >>> (n * 4)) &&& 0xff ≠ 5 then s
  else
    let s1 := { s with noise := u32 (s.noise * 314159 + 1) }
    let s2 := stm32_adc_fifo_write s1 n (0x200 + ((s1.noise >>> 16) &&& 7))
    let s3 := { s2 with ris := s2.ris ||| (1 <<< n) }
    stm32_adc_update s3

/-- `stm32_adc_trigger`: the external trigger pulse entry point. -/
def stm32_adc_trigger (s : AdcState) : AdcState :=
  (List.range 4).foldl adc_trigger_step s

/-- The shared switch of `stm32_adc_write` (reached directly, or by
fall-through from the per-sequencer decode).  `none` models `hw_error`. -/
def adc_write_common (s : AdcState) (offset : Nat) (value : Nat) : Option AdcState :=
  (if offset = 0x00 then some { s with actss := value &&& 0xf }
   else if offset = 0x08 then some { s with im := u32 value }
   else if offset = 0x0c then some { s with ris := s.ris &&& compl32 value }
   else if offset = 0x10 then some { s with ostat := s.ostat &&& compl32 value }
   else if offset = 0x14 then some { s with emux := u32 value }
   else if offset = 0x18 then some { s with ustat := s.ustat &&& compl32 value }
   else if offset = 0x20 then some { s with sspri := u32 value }
   else if offset = 0x28 then none
   else if offset = 0x30 then some { s with sac := u32 value }
   else none).map stm32_adc_update

/-- `stm32_adc_write`: the register write entry point.  The SSMUX and
SSCTL cases return without re-evaluating the interrupt lines, exactly as
the source does. -/
def stm32_adc_write (s : AdcState) (offset : Nat) (value : Nat) : Option AdcState :=
  if 0x40 ≤ offset ∧ offset < 0xc0 then
    let n := (offset - 0x40) >>> 5
    if offset &&& 0x1f = 0x00 then some (s.setSsmux n (value &&& 0x33333333))
    else if offset &&& 0x1f = 0x04 then
      if value ≠ 6 then none else some (s.setSsctl n (u32 value))
    else adc_write_common s offset value
  else adc_write_common s offset value

/-! ## Bit-arithmetic helper lemmas -/

theorem lor_and_self (a b : Nat) : (a ||| b) &&& b = b := by
  apply Nat.eq_of_testBit_eq
  intro i
  simp only [Nat.testBit_and, Nat.testBit_or]
  cases a.testBit i <;> cases b.testBit i <;> simp

theorem and_lor_cancel {b c : Nat} (h : b &&& c = 0) (a : Nat) :
    (a ||| b) &&& c = a &&& c := by
  apply Nat.eq_of_testBit_eq
  intro i
  have hb : (b &&& c).testBit i = (0 : Nat).testBit i := by rw [h]
  simp only [Nat.testBit_and, Nat.testBit_or, Nat.zero_testBit] at hb ⊢
  cases hab : a.testBit i <;> cases hbb : b.testBit i <;> cases hcb : c.testBit i <;>
    simp_all

theorem and_and_right_zero {b c : Nat} (h : b &&& c = 0) (a : Nat) :
    (a &&& b) &&& c = 0 := by
  rw [Nat.and_assoc, h, Nat.and_zero]

theorem u32_eq_of_lt {x : Nat} (h : x < 4294967296) : u32 x = x :=
  Nat.mod_eq_of_lt h

theorem and_ffff_or_shift (L : Nat) : (L &&& 0xffff) ||| ((L >>> 16) <<< 16) = L := by
  have hmod : L &&& 0xffff = L % 65536 := by
    have h := Nat.and_pow_two_sub_one_eq_mod L 16
    norm_num at h
    exact h
  have hbit : ∀ i, (L % 65536).testBit i = (decide (i < 16) && L.testBit i) := by
    intro i
    have h := Nat.testBit_mod_two_pow L 16 i
    norm_num at h
    exact h
  rw [hmod]
  apply Nat.eq_of_testBit_eq
  intro i
  rw [Nat.testBit_or, hbit, Nat.testBit_shiftLeft, Nat.testBit_shiftRight]
  rcases lt_or_ge i 16 with hi | hi
  · have h1 : ¬ i ≥ 16 := by omega
    simp [hi, h1]
  · have h1 : ¬ i < 16 := by omega
    have h2 : 16 + (i - 16) = i := by omega
    simp [hi, h1, h2]

theorem xor_and_one {x y : Nat} (hx : x &&& 1 = 0) (hy : y &&& 1 = 1) :
    (x ^^^ y) &&& 1 = 1 := by
  rw [Nat.and_xor_distrib_right, hx, hy]
  decide

/-! ## Example states shared by witnesses and counterexamples -/

/-- An all-clear system-controller state whose derived scale satisfies
the clock invariant. -/
def ssysEx : SsysState :=
  { pborctl := 0, ldopctl := 0, int_status := 0, int_mask := 0, resc := 0,
    rcc := 0, rcc_cr := 0, rcc_cfgr := 0, rcc_anything_else := 0, rcc2 := 0,
    rcgc0 := 0, rcgc1 := 0, rcgc2 := 0, scgc0 := 0, scgc1 := 0, scgc2 := 0,
    dcgc0 := 0, dcgc1 := 0, dcgc2 := 0, clkvclr := 0, ldoarst := 0, did0 := 0,
    scale := 5, irqLevel := false }

/-- An all-clear timer state (the post-instantiation zero state). -/
def gptmEx0 : GptmState :=
  { config := 0, mode0 := 0, mode1 := 0, control := 0, state := 0, mask := 0,
    load0 := 0, load1 := 0, match0 := 0, match1 := 0, prescale0 := 0, prescale1 := 0,
    match_prescale0 := 0, match_prescale1 := 0, rtc := 0, tick0 := 0, tick1 := 0,
    sched0 := none, sched1 := none, irqLevel := false, triggerPulses := 0 }

/-- A timer configured as a 32-bit RTC with a nonzero combined load. -/
def gptmExRtc : GptmState := { gptmEx0 with config := 1, load0 := 2 }

/-! ## C1: the SSYS write entry point maintains the clock-scale invariant -/

/-- C1: for the system controller, after every register write the derived
`systemClockScale` still equals `5 * (divisorField + 1)`, where the
divisor field is the 6-bit field at bits 28:23 of `rcc2` when bit 31 of
`rcc2` is set and otherwise the 4-bit field at bits 26:23 of `rcc`: the
write entry point keeps this equation an invariant for every offset and
every written value (no write ever touches `rcc`, `rcc2` or the derived
scale). -/
theorem c1_ssys_write_preserves_clock_invariant (s : SsysState) (offset value : Nat)
    (h : ssys_invariant s) : ssys_invariant (ssys_write s offset value) := by
  have hframe : (ssys_write s offset value).rcc = s.rcc ∧
      (ssys_write s offset value).rcc2 = s.rcc2 ∧
      (ssys_write s offset value).scale = s.scale := by
    unfold ssys_write ssys_update
    split_ifs <;> simp [apply_ite]
  obtain ⟨h1, h2, h3⟩ := hframe
  unfold ssys_invariant ssys_divisor ssys_use_rcc2 at h ⊢
  rw [h1, h2, h3]
  exact h

/-- Witness for C1 at a concrete state and write. -/
theorem c1_witness :
    ssys_invariant ssysEx ∧ ssys_invariant (ssys_write ssysEx 0x50 0x12345678) := by
  have h : ssys_invariant ssysEx := by
    unfold ssys_invariant ssys_divisor ssys_use_rcc2
    decide
  exact ⟨h, c1_ssys_write_preserves_clock_invariant ssysEx 0x50 0x12345678 h⟩

/-! ## C9: the PLL-ready bit is set by every clock-control write -/

/-- C9: every write to the clock-control register (offset 0x00) leaves
the PLL-ready bit set in the stored register, including when the written
value does not request PLL enable: the stored value is always
`value | PLLRDY`, because the enable test ORs the register with the
PLLON mask and is therefore never zero. -/
theorem c9_pll_ready_always_set (s : SsysState) (value : Nat) :
    (ssys_write s 0x00 value).rcc_cr = u32 value ||| RCC_CR_PLLRDY ∧
    (ssys_write s 0x00 value).rcc_cr &&& RCC_CR_PLLRDY = RCC_CR_PLLRDY := by
  have hne : u32 value ||| RCC_CR_PLLON ≠ 0 := by
    intro h
    have h24 : (u32 value ||| RCC_CR_PLLON).testBit 24 = false := by
      rw [h]
      simp
    rw [Nat.testBit_or] at h24
    have h25 : Nat.testBit RCC_CR_PLLON 24 = true := by decide
    simp [h25] at h24
  constructor
  · simp [ssys_write, ssys_update, hne]
  · simp [ssys_write, ssys_update, hne, lor_and_self]

/-! ## C10: the TBPMR write lands in channel A's match-prescale slot -/

/-- C10: a write to the timer-B match-prescale register (offset 0x44)
stores the value into channel A's `match_prescale[0]` and leaves channel
B's `match_prescale[1]` unchanged, so channel B's match-prescale cannot
be changed through its own register. -/
theorem c10_tbpmr_write_hits_channel_a (scale now : Int) (s : GptmState) (value : Nat) :
    (gptm_write scale now s 0x44 value).map
      (fun t => (t.match_prescale0, t.match_prescale1)) =
      some (u32 value, s.match_prescale1) := by
  simp [gptm_write, gptm_update_irq]

/-! ## C4: a one-shot 32-bit countdown timer fires exactly once -/

/-- C4: in 32-bit countdown mode (`config = 0`) with mode bit 0 set
(one-shot), a fire clears the enable bit (control bit 0), performs no
reload (the channel's deadline base is untouched) and leaves no pending
scheduled callback, so no second deadline exists until the guest
re-enables the timer. -/
theorem c4_oneshot_fires_once (scale : Int) (s : GptmState)
    (hcfg : s.config = 0) (hmode : s.mode0 &&& 1 ≠ 0) :
    ∃ t, gptm_fire scale s 0 = some t ∧ t.control &&& 1 = 0 ∧ t.sched0 = none ∧
      t.tick0 = s.tick0 := by
  have hm : s.mode0 % 2 = 1 := by
    rw [Nat.and_one_is_mod] at hmode
    omega
  have hctl2 : ∀ x : Nat, (x &&& 0xfffffffe) % 2 = 0 := fun x => by
    rw [← Nat.and_one_is_mod]
    exact and_and_right_zero (by decide) x
  unfold gptm_fire gptm_tick
  by_cases htr : s.control &&& 0x20 != 0 <;>
    simp [hcfg, htr, hm, gptm_update_irq, hctl2]

/-- Witness for C4 at a concrete one-shot state. -/
theorem c4_witness :
    ∃ t, gptm_fire 5 { gptmEx0 with mode0 := 1, control := 1, sched0 := some 50 } 0 =
        some t ∧ t.control &&& 1 = 0 ∧ t.sched0 = none ∧
      t.tick0 = ({ gptmEx0 with mode0 := 1, control := 1, sched0 := some 50 } : GptmState).tick0 :=
  c4_oneshot_fires_once 5 _ rfl (by decide)

/-! ## C2: first deadline of an enabled timer -/

/-- C2 (amended): in 32-bit countdown mode (`config = 0`), writing a
32-bit load value `L` to TAILR (so that `load[0] | load[1] << 16 = L`)
and then enabling the timer by a 0-to-1 transition of control bit 0
schedules the first fire at exactly `now + L * systemClockScale`, with
zero error.  (The original claim ranged over every `config < 4`; it
fails for `config = 1`, where the deadline is one virtual second.) -/
theorem c2_config0_first_deadline (scale now : Int) (s : GptmState) (L value : Nat)
    (hcfg : s.config = 0) (hL : L < 4294967296)
    (hdis : s.control &&& 1 = 0) (hen : value &&& 1 = 1) :
    ∃ s1 s2, gptm_write scale now s 0x28 L = some s1 ∧
      gptm_write scale now s1 0x0c value = some s2 ∧
      s2.sched0 = some (now + (L : Int) * scale) := by
  have hxne : (s.control ^^^ value) &&& 1 ≠ 0 := by
    rw [xor_and_one hdis hen]
    decide
  have hv1 : value &&& 1 ≠ 0 := by
    rw [hen]
    decide
  have hsr : L >>> 16 < 4294967296 := by
    have hle : L >>> 16 ≤ L := by
      rw [Nat.shiftRight_eq_div_pow]
      exact Nat.div_le_self L (2 ^ 16)
    omega
  have hsl : (L >>> 16) <<< 16 ≤ L := by
    rw [Nat.shiftLeft_eq, Nat.shiftRight_eq_div_pow]
    exact Nat.div_mul_le_self L (2 ^ 16)
  have hcount : u32 ((L &&& 0xffff) ||| u32 (u32 (L >>> 16) <<< 16)) = L := by
    rw [u32_eq_of_lt hsr, u32_eq_of_lt (lt_of_le_of_lt hsl hL), and_ffff_or_shift,
      u32_eq_of_lt hL]
  let sA : GptmState := { s with load0 := L &&& 0xffff, load1 := u32 (L >>> 16) }
  let sB : GptmState := { gptm_update_irq sA with control := u32 value }
  refine ⟨gptm_update_irq sA,
    gptm_update_irq (gptm_set_tick sB 0 (now + (L : Int) * scale)), ?_, ?_, ?_⟩
  · simp [gptm_write, gptm_update_irq, hcfg, sA]
  · have hd : s.control % 2 = 0 := by
      rw [← Nat.and_one_is_mod]
      exact hdis
    have he : value % 2 = 1 := by
      rw [← Nat.and_one_is_mod]
      exact hen
    have hxadd : (s.control + value) % 2 = 1 := by omega
    simp only [sA, sB, gptm_write, gptm_update_irq, gptm_reload, gptm_set_tick, hcfg,
      hxne, hv1, hcount]
    simp [hxadd, he, hcfg, hcount]
    rfl
  · simp [gptm_update_irq, gptm_set_tick]

/-- The RTC-mode counterexample to C2 as originally stated: with
`config = 1` (still `< 4`), a combined load of 2 and a clock scale of 5,
enabling the timer at time 0 schedules the first fire at one virtual
second, not at `0 + 2 * 5`. -/
theorem c2_counterexample :
    gptmExRtc.config < 4 ∧
    (gptm_write 5 0 gptmExRtc 0x0c 1).map (fun t => t.sched0) =
      some (some 1000000000) ∧
    (0 + ((gptmExRtc.load0 ||| (gptmExRtc.load1 <<< 16) : Nat) : Int) * 5 ≠
      1000000000) := by
  refine ⟨by decide, by decide, by decide⟩

/-- Witness for C2 at a concrete state: load `0x20003`, scale 5, enable
at time 100. -/
theorem c2_witness :
    ∃ s1 s2, gptm_write 5 100 gptmEx0 0x28 0x20003 = some s1 ∧
      gptm_write 5 100 s1 0x0c 1 = some s2 ∧
      s2.sched0 = some (100 + (0x20003 : Int) * 5) :=
  c2_config0_first_deadline 5 100 gptmEx0 0x20003 1 rfl (by decide) (by decide) (by decide)

/-! ## C5: interrupt line levels after mutations -/

/-- The GPTM interrupt line carries `(state & mask) != 0`. -/
def gptmIrqOk (s : GptmState) : Prop := s.irqLevel = (s.state &&& s.mask != 0)

/-- The SSYS interrupt line carries `(int_status & int_mask) != 0`. -/
def ssysIrqOk (s : SsysState) : Prop := s.irqLevel = (s.int_status &&& s.int_mask != 0)

/-- The I2C interrupt line carries `(mris & mimr) != 0`. -/
def i2cIrqOk (s : I2cState) : Prop := s.irqLevel = (s.mris &&& s.mimr != 0)

/-- Each ADC interrupt line `n` carries `(ris & im & (1 << n)) != 0`. -/
def adcIrqOk (s : AdcState) : Prop :=
  s.irq0 = (s.ris &&& s.im &&& 1 != 0) ∧ s.irq1 = (s.ris &&& s.im &&& 2 != 0) ∧
  s.irq2 = (s.ris &&& s.im &&& 4 != 0) ∧ s.irq3 = (s.ris &&& s.im &&& 8 != 0)

theorem gptmIrqOk_update (s : GptmState) : gptmIrqOk (gptm_update_irq s) := rfl

theorem ssysIrqOk_update (s : SsysState) : ssysIrqOk (ssys_update s) := rfl

theorem i2cIrqOk_update (s : I2cState) : i2cIrqOk (stm32_i2c_update s) := rfl

theorem adcIrqOk_update (s : AdcState) : adcIrqOk (stm32_adc_update s) :=
  ⟨rfl, rfl, rfl, rfl⟩

theorem adcIrqOk_trigger_step (s : AdcState) (n : Nat) (h : adcIrqOk s) :
    adcIrqOk (adc_trigger_step s n) := by
  unfold adc_trigger_step
  split_ifs
  · exact h
  · exact h
  · exact adcIrqOk_update _

theorem adcIrqOk_fold (l : List Nat) (s : AdcState) (h : adcIrqOk s) :
    adcIrqOk (l.foldl adc_trigger_step s) := by
  induction l generalizing s with
  | nil => exact h
  | cons a t ih => exact ih _ (adcIrqOk_trigger_step s a h)

theorem adcIrqOk_setSsmux (s : AdcState) (n v : Nat) (h : adcIrqOk s) :
    adcIrqOk (s.setSsmux n v) := by
  unfold AdcState.setSsmux
  split_ifs <;> exact h

theorem adcIrqOk_setSsctl (s : AdcState) (n v : Nat) (h : adcIrqOk s) :
    adcIrqOk (s.setSsctl n v) := by
  unfold AdcState.setSsctl
  split_ifs <;> exact h

/-- C5: after any completed register write or timer-fire mutation of any
peripheral, each interrupt output line equals `(raw status & mask) != 0`
over the post-mutation state (for the ADC's SSMUX/SSCTL writes and a
trigger with no matching sequencers, the source skips the re-evaluation,
but those paths touch neither the raw status nor the mask, so the
equation is still an invariant). -/
theorem c5_irq_level_matches_raw_and_mask :
    (∀ scale now s offset value t,
       gptm_write scale now s offset value = some t → gptmIrqOk t) ∧
    (∀ scale s n t, gptm_fire scale s n = some t → gptmIrqOk t) ∧
    (∀ s offset value, ssysIrqOk (ssys_write s offset value)) ∧
    (∀ s b offset value t,
       stm32_i2c_write s b offset value = some t → i2cIrqOk t.fst) ∧
    (∀ s offset value t,
       adcIrqOk s → stm32_adc_write s offset value = some t → adcIrqOk t) ∧
    (∀ s, adcIrqOk s → adcIrqOk (stm32_adc_trigger s)) := by
  refine ⟨?_, ?_, ?_, ?_, ?_, ?_⟩
  · intro scale now s offset value t h
    simp only [gptm_write, Option.map_eq_some'] at h
    obtain ⟨x, _, ht⟩ := h
    exact ht ▸ gptmIrqOk_update x
  · intro scale s n t h
    simp only [gptm_fire, gptm_tick] at h
    split_ifs at h <;>
      first
      | (rw [Option.map_eq_some'] at h
         obtain ⟨x, _, ht⟩ := h
         exact ht ▸ gptmIrqOk_update x)
      | (simp only [Option.some.injEq] at h
         exact h ▸ gptmIrqOk_update _)
  · intro s offset value
    exact ssysIrqOk_update _
  · intro s b offset value t h
    simp only [stm32_i2c_write, Option.map_eq_some'] at h
    obtain ⟨x, _, ht⟩ := h
    subst ht
    exact i2cIrqOk_update _
  · intro s offset value t hok h
    unfold stm32_adc_write at h
    split_ifs at h <;>
      first
      | (simp only [Option.some.injEq] at h
         exact h ▸ adcIrqOk_setSsmux s _ _ hok)
      | (simp only [Option.some.injEq] at h
         exact h ▸ adcIrqOk_setSsctl s _ _ hok)
      | exact Option.noConfusion h
      | (simp only [adc_write_common, Option.map_eq_some'] at h
         obtain ⟨x, _, ht⟩ := h
         exact ht ▸ adcIrqOk_update x)
  · exact fun s h => adcIrqOk_fold _ s h

/-- A reset-like ADC FIFO: the packed state word holds only the EMPTY
flag and the data array is cleared. -/
def adcFifoReset : AdcFifo :=
  { state := 0x100, data := [0, 0, 0, 0, 0, 0, 0, 0, 0, 0, 0, 0, 0, 0, 0, 0] }

/-- A reset-like ADC engine state. -/
def adcEx : AdcState :=
  { actss := 0, ris := 0, im := 0, emux := 0, ostat := 0, ustat := 0,
    sspri := 0, sac := 0,
    fifo0 := adcFifoReset, fifo1 := adcFifoReset, fifo2 := adcFifoReset,
    fifo3 := adcFifoReset,
    ssmux0 := 0, ssmux1 := 0, ssmux2 := 0, ssmux3 := 0,
    ssctl0 := 0, ssctl1 := 0, ssctl2 := 0, ssctl3 := 0,
    noise := 0, irq0 := false, irq1 := false, irq2 := false, irq3 := false }

/-- An enabled, idle I2C controller. -/
def i2cEx : I2cState :=
  { msa := 0, mcs := 0, mdr := 0x5a, mtpr := 1, mimr := 0, mris := 0, mcr := 0x10,
    irqLevel := false }

/-- An I2C bus that nobody holds. -/
def i2cBusIdle : I2CBus :=
  { heldByOther := false, heldBySelf := false, recvVal := 0xab, sent := [] }

/-- An I2C bus held by another master. -/
def i2cBusHeld : I2CBus :=
  { heldByOther := true, heldBySelf := false, recvVal := 0xab, sent := [] }

/-- Witness for C5: one concrete mutation of each kind. -/
theorem c5_witness :
    (∃ t, gptm_write 5 0 gptmEx0 0x18 0x77 = some t ∧ gptmIrqOk t) ∧
    (∃ t, gptm_fire 5 { gptmEx0 with mode0 := 1, control := 1 } 0 = some t ∧
      gptmIrqOk t) ∧
    ssysIrqOk (ssys_write ssysEx 0x00 0) ∧
    (∃ t, stm32_i2c_write i2cEx i2cBusIdle 0x08 0x12 = some t ∧ i2cIrqOk t.fst) ∧
    (∃ t, stm32_adc_write adcEx 0x08 0xf = some t ∧ adcIrqOk t) ∧
    adcIrqOk (stm32_adc_trigger adcEx) := by
  obtain ⟨h1, h2, h3, h4, h5, h6⟩ := c5_irq_level_matches_raw_and_mask
  refine ⟨⟨_, rfl, h1 5 0 gptmEx0 0x18 0x77 _ rfl⟩,
    ⟨_, rfl, h2 5 { gptmEx0 with mode0 := 1, control := 1 } 0 _ rfl⟩,
    h3 ssysEx 0x00 0,
    ⟨_, rfl, h4 i2cEx i2cBusIdle 0x08 0x12 _ rfl⟩,
    ⟨_, rfl, h5 adcEx 0x08 0xf _ ⟨rfl, rfl, rfl, rfl⟩ rfl⟩,
    h6 adcEx ⟨rfl, rfl, rfl, rfl⟩⟩

/-! ## C6: I2C arbitration, error abort, and single-write transfer -/

theorem or_mid_and_self (a b c : Nat) : ((a ||| b) ||| c) &&& b = b := by
  rw [Nat.or_assoc, Nat.or_comm b c, ← Nat.or_assoc, lor_and_self]

/-- C6: for the I2C master, (1) a control/status write with the start
bit set while the bus is held by another master sets the
arbitration-lost flag, never sets bus-busy, and aborts with the error
flag and no byte transfer; (2) whenever, after the start attempt, the
bus is not held, the error flag is set and the operation aborts before
any byte transfer, so the run bit of the same write is not processed;
(3) on an idle bus a single start+run+stop write (value 7) performs
exactly one byte transfer and releases the bus in that same operation. -/
theorem c6_i2c_master_protocol :
    (∀ s b value, s.mcr &&& 0x10 ≠ 0 → value &&& 2 ≠ 0 →
       s.mcs &&& STELLARIS_I2C_MCS_BUSBSY = 0 → b.heldByOther = true →
       ∃ t, stm32_i2c_write s b 0x04 value = some t ∧
         t.fst.mcs &&& STELLARIS_I2C_MCS_ARBLST ≠ 0 ∧
         t.fst.mcs &&& STELLARIS_I2C_MCS_BUSBSY = 0 ∧
         t.fst.mcs &&& STELLARIS_I2C_MCS_ERROR ≠ 0 ∧
         t.snd.snd = 0 ∧ t.snd.fst = b) ∧
    (∀ s b value, s.mcr &&& 0x10 ≠ 0 →
       i2c_bus_busy (i2c_mcs_start s b value).snd = false →
       ∃ t, stm32_i2c_write s b 0x04 value = some t ∧
         t.fst.mcs &&& STELLARIS_I2C_MCS_ERROR ≠ 0 ∧
         t.snd.snd = 0 ∧ t.fst.mdr = s.mdr ∧ t.fst.mris = s.mris ∧
         t.snd.fst = (i2c_mcs_start s b value).snd) ∧
    (∀ s b, s.mcr &&& 0x10 ≠ 0 → s.mcs &&& STELLARIS_I2C_MCS_BUSBSY = 0 →
       b.heldByOther = false → b.heldBySelf = false →
       ∃ t, stm32_i2c_write s b 0x04 7 = some t ∧
         t.snd.snd = 1 ∧
         t.fst.mcs &&& STELLARIS_I2C_MCS_BUSBSY = 0 ∧
         t.snd.fst.heldBySelf = false ∧ t.snd.fst.heldByOther = false) := by
  refine ⟨?_, ?_, ?_⟩
  · intro s b value hmcr hstart hnb hheld
    have hc : value &&& 2 ≠ 0 ∧ s.mcs &&& STELLARIS_I2C_MCS_BUSBSY = 0 :=
      ⟨hstart, hnb⟩
    have h1 : (s.mcs ||| STELLARIS_I2C_MCS_ARBLST) &&& STELLARIS_I2C_MCS_BUSBSY = 0 := by
      rw [and_lor_cancel (by decide) s.mcs]
      exact hnb
    have hstep : i2c_mcs_start s b value =
        ({ s with mcs := s.mcs ||| STELLARIS_I2C_MCS_ARBLST }, b) := by
      unfold i2c_mcs_start i2c_start_transfer
      rw [if_pos hc]
      simp [hheld]
    have hw : i2c_write_mcs s b value =
        ({ s with mcs := (s.mcs ||| STELLARIS_I2C_MCS_ARBLST) ||| STELLARIS_I2C_MCS_ERROR }, b, 0) := by
      simp only [i2c_write_mcs, hstep]
      rw [if_neg hmcr, if_pos (Or.inr h1)]
    have hfinal : stm32_i2c_write s b 0x04 value =
        some (stm32_i2c_update { s with mcs := (s.mcs ||| STELLARIS_I2C_MCS_ARBLST) ||| STELLARIS_I2C_MCS_ERROR }, b, 0) := by
      simp [stm32_i2c_write, hw]
    refine ⟨_, hfinal, ?_, ?_, ?_, rfl, rfl⟩
    · show ((s.mcs ||| STELLARIS_I2C_MCS_ARBLST) ||| STELLARIS_I2C_MCS_ERROR) &&&
        STELLARIS_I2C_MCS_ARBLST ≠ 0
      rw [or_mid_and_self]
      decide
    · show ((s.mcs ||| STELLARIS_I2C_MCS_ARBLST) ||| STELLARIS_I2C_MCS_ERROR) &&&
        STELLARIS_I2C_MCS_BUSBSY = 0
      rw [and_lor_cancel (by decide), and_lor_cancel (by decide)]
      exact hnb
    · show ((s.mcs ||| STELLARIS_I2C_MCS_ARBLST) ||| STELLARIS_I2C_MCS_ERROR) &&&
        STELLARIS_I2C_MCS_ERROR ≠ 0
      rw [lor_and_self]
      decide
  · intro s b value hmcr hbus
    have hmdr : (i2c_mcs_start s b value).fst.mdr = s.mdr ∧
        (i2c_mcs_start s b value).fst.mris = s.mris := by
      unfold i2c_mcs_start i2c_start_transfer
      split_ifs <;> simp
    have hw : i2c_write_mcs s b value =
        ({ (i2c_mcs_start s b value).fst with
            mcs := (i2c_mcs_start s b value).fst.mcs ||| STELLARIS_I2C_MCS_ERROR },
          (i2c_mcs_start s b value).snd, 0) := by
      simp only [i2c_write_mcs]
      rw [if_neg hmcr, if_pos (Or.inl hbus)]
    have hfinal : stm32_i2c_write s b 0x04 value =
        some (stm32_i2c_update { (i2c_mcs_start s b value).fst with
            mcs := (i2c_mcs_start s b value).fst.mcs ||| STELLARIS_I2C_MCS_ERROR },
          (i2c_mcs_start s b value).snd, 0) := by
      simp [stm32_i2c_write, hw]
    refine ⟨_, hfinal, ?_, rfl, ?_, ?_, rfl⟩
    · show ((i2c_mcs_start s b value).fst.mcs ||| STELLARIS_I2C_MCS_ERROR) &&&
        STELLARIS_I2C_MCS_ERROR ≠ 0
      rw [lor_and_self]
      decide
    · exact hmdr.1
    · exact hmdr.2
  · intro s b hmcr hnb hother hself
    have hc : (7 : Nat) &&& 2 ≠ 0 ∧ s.mcs &&& STELLARIS_I2C_MCS_BUSBSY = 0 :=
      ⟨by decide, hnb⟩
    have hstep : i2c_mcs_start s b 7 =
        ({ s with mcs := (s.mcs &&& compl32 STELLARIS_I2C_MCS_ARBLST) ||| STELLARIS_I2C_MCS_BUSBSY },
          { b with heldBySelf := true }) := by
      unfold i2c_mcs_start i2c_start_transfer
      rw [if_pos hc]
      simp [hother]
    have hcond : ¬(i2c_bus_busy { b with heldBySelf := true } = false ∨
        ((s.mcs &&& compl32 STELLARIS_I2C_MCS_ARBLST) ||| STELLARIS_I2C_MCS_BUSBSY) &&&
          STELLARIS_I2C_MCS_BUSBSY = 0) := by
      intro h
      rcases h with h | h
      · simp [i2c_bus_busy] at h
      · rw [lor_and_self] at h
        exact absurd h (by decide)
    have hz : ∀ x : Nat, (x &&& compl32 STELLARIS_I2C_MCS_BUSBSY) &&&
        STELLARIS_I2C_MCS_BUSBSY = 0 := fun x =>
      and_and_right_zero (by decide) x
    have hoff : stm32_i2c_write s b 0x04 7 =
        some (stm32_i2c_update (i2c_write_mcs s b 7).fst, (i2c_write_mcs s b 7).snd.fst,
          (i2c_write_mcs s b 7).snd.snd) := by
      simp [stm32_i2c_write]
    rw [hoff]
    simp only [i2c_write_mcs, hstep]
    simp only [if_neg hmcr, if_neg hcond]
    by_cases hm : s.msa % 2 = 1 <;>
      simp [hm, i2c_send, i2c_recv, i2c_end_transfer, stm32_i2c_update, hz, hother]

/-- Witness for C6: the three scenarios run on concrete states. -/
theorem c6_witness :
    (∃ t, stm32_i2c_write i2cEx i2cBusHeld 0x04 7 = some t ∧
      t.fst.mcs &&& STELLARIS_I2C_MCS_ARBLST ≠ 0 ∧
      t.fst.mcs &&& STELLARIS_I2C_MCS_BUSBSY = 0 ∧
      t.fst.mcs &&& STELLARIS_I2C_MCS_ERROR ≠ 0 ∧
      t.snd.snd = 0 ∧ t.snd.fst = i2cBusHeld) ∧
    (∃ t, stm32_i2c_write i2cEx i2cBusIdle 0x04 1 = some t ∧
      t.fst.mcs &&& STELLARIS_I2C_MCS_ERROR ≠ 0 ∧
      t.snd.snd = 0 ∧ t.fst.mdr = i2cEx.mdr ∧ t.fst.mris = i2cEx.mris ∧
      t.snd.fst = (i2c_mcs_start i2cEx i2cBusIdle 1).snd) ∧
    (∃ t, stm32_i2c_write i2cEx i2cBusIdle 0x04 7 = some t ∧
      t.snd.snd = 1 ∧
      t.fst.mcs &&& STELLARIS_I2C_MCS_BUSBSY = 0 ∧
      t.snd.fst.heldBySelf = false ∧ t.snd.fst.heldByOther = false) := by
  obtain ⟨h1, h2, h3⟩ := c6_i2c_master_protocol
  exact ⟨h1 i2cEx i2cBusHeld 7 (by decide) (by decide) (by decide) rfl,
    h2 i2cEx i2cBusIdle 1 (by decide) (by decide),
    h3 i2cEx i2cBusIdle (by decide) (by decide) rfl rfl⟩

/-! ## C8: ADC FIFO overflow and underflow -/

/-- A sequence of FIFO pushes into sequencer `n`. -/
def adc_fifo_write_seq (s : AdcState) (n : Nat) (l : List Nat) : AdcState :=
  l.foldl (fun a x => stm32_adc_fifo_write a n x) s

theorem fifoAt_setFifo (s : AdcState) (n : Nat) (f : AdcFifo) (hn : n < 4) :
    (s.setFifo n f).fifoAt n = f := by
  unfold AdcState.setFifo AdcState.fifoAt
  interval_cases n <;> simp

theorem setFifo_setFifo (s : AdcState) (n : Nat) (f g : AdcFifo) :
    (s.setFifo n f).setFifo n g = s.setFifo n g := by
  unfold AdcState.setFifo
  split_ifs <;> rfl

/-- `stm32_adc_fifo_write` phrased through the FIFO-level `fifoPush`. -/
theorem adc_fifo_write_eq (s : AdcState) (n v : Nat) :
    stm32_adc_fifo_write s n v =
      if (fifoPush (s.fifoAt n) v).snd then { s with ostat := s.ostat ||| (1 <<< n) }
      else s.setFifo n (fifoPush (s.fifoAt n) v).fst := by
  unfold stm32_adc_fifo_write fifoPush
  by_cases h : (s.fifoAt n).state &&& STELLARIS_ADC_FIFO_FULL ≠ 0 <;> simp [h]

theorem fifoPush_snd (f : AdcFifo) (x : Nat) :
    (fifoPush f x).snd = (f.state &&& STELLARIS_ADC_FIFO_FULL != 0) := by
  unfold fifoPush
  by_cases h : f.state &&& STELLARIS_ADC_FIFO_FULL ≠ 0
  · simp [h]
  · rw [not_not] at h
    simp [h]

theorem adc_fifo_seq_cons (n : Nat) (t : AdcState) (x : Nat) (l : List Nat) (f : AdcFifo)
    (hf : t.fifoAt n = f) (hnf : (fifoPush f x).snd = false) :
    adc_fifo_write_seq t n (x :: l) =
      adc_fifo_write_seq (t.setFifo n (fifoPush f x).fst) n l := by
  unfold adc_fifo_write_seq
  rw [List.foldl_cons]
  congr 1
  rw [adc_fifo_write_eq, hf, hnf]
  simp

/-- Closed-form of a non-full `fifoPush`, phrased so that all numeric
side conditions are closed when the state word is a literal. -/
theorem fifoPush_eq (stw st' hd : Nat)
    (h : stw &&& STELLARIS_ADC_FIFO_FULL = 0)
    (hhd : (stw >>> 4) &&& 0xf = hd)
    (hst : (if (((stw &&& compl32 STELLARIS_ADC_FIFO_EMPTY) &&& compl32 0xf0) |||
              (((hd + 1) &&& 0xf) <<< 4)) &&& 0xf = (hd + 1) &&& 0xf then
            (((stw &&& compl32 STELLARIS_ADC_FIFO_EMPTY) &&& compl32 0xf0) |||
              (((hd + 1) &&& 0xf) <<< 4)) ||| STELLARIS_ADC_FIFO_FULL
          else ((stw &&& compl32 STELLARIS_ADC_FIFO_EMPTY) &&& compl32 0xf0) |||
              (((hd + 1) &&& 0xf) <<< 4)) = st')
    (d : List Nat) (x : Nat) :
    fifoPush { state := stw, data := d } x =
      ({ state := st', data := d.set hd x }, false) := by
  subst hhd
  subst hst
  unfold fifoPush
  simp [h]

/-- C8: for every sequencer `n`, writing 17 samples into an initially
empty FIFO stores the first 16 (leaving the FIFO full), and the 17th
write only sets sequencer `n`'s overflow bit, dropping the sample and
leaving the stored data and the head/tail state word unchanged; and a
read from an empty FIFO sets the underflow bit, returns the stale slot
at the tail, and does not advance the tail. -/
theorem c8_adc_fifo_overflow_underflow :
    (∀ s n (v : Fin 17 → Nat) s16, n < 4 → s.fifoAt n = adcFifoReset →
      s16 = adc_fifo_write_seq s n [v 0, v 1, v 2, v 3, v 4, v 5, v 6, v 7, v 8, v 9,
        v 10, v 11, v 12, v 13, v 14, v 15] →
      (s16.fifoAt n).data = [v 0, v 1, v 2, v 3, v 4, v 5, v 6, v 7, v 8, v 9, v 10,
        v 11, v 12, v 13, v 14, v 15] ∧
      (s16.fifoAt n).state = STELLARIS_ADC_FIFO_FULL ∧
      stm32_adc_fifo_write s16 n (v 16) = { s16 with ostat := s16.ostat ||| (1 <<< n) }) ∧
    (∀ s n, n < 4 → (s.fifoAt n).state &&& STELLARIS_ADC_FIFO_EMPTY ≠ 0 →
      stm32_adc_fifo_read s n =
        ({ s with ustat := s.ustat ||| (1 <<< n) },
         (s.fifoAt n).data.getD ((s.fifoAt n).state &&& 0xf) 0)) := by
  constructor
  · intro s n v s16 hn hfa hs16
    subst hs16
    have e1 : adc_fifo_write_seq s n [v 0, v 1, v 2, v 3, v 4, v 5, v 6, v 7, v 8, v 9, v 10, v 11, v 12, v 13, v 14, v 15] =
        adc_fifo_write_seq (s.setFifo n { state := 16, data := [v 0, 0, 0, 0, 0, 0, 0, 0, 0, 0, 0, 0, 0, 0, 0, 0] }) n [v 1, v 2, v 3, v 4, v 5, v 6, v 7, v 8, v 9, v 10, v 11, v 12, v 13, v 14, v 15] := by
      rw [adc_fifo_seq_cons n s (v 0) _ { state := 256, data := [0, 0, 0, 0, 0, 0, 0, 0, 0, 0, 0, 0, 0, 0, 0, 0] } (by rw [hfa]; rfl)
          (by simp only [fifoPush_snd]; decide),
        fifoPush_eq 256 16 0 (by decide) (by decide) (by decide)]
      rfl
    have e2 : adc_fifo_write_seq (s.setFifo n { state := 16, data := [v 0, 0, 0, 0, 0, 0, 0, 0, 0, 0, 0, 0, 0, 0, 0, 0] }) n [v 1, v 2, v 3, v 4, v 5, v 6, v 7, v 8, v 9, v 10, v 11, v 12, v 13, v 14, v 15] =
        adc_fifo_write_seq (s.setFifo n { state := 32, data := [v 0, v 1, 0, 0, 0, 0, 0, 0, 0, 0, 0, 0, 0, 0, 0, 0] }) n [v 2, v 3, v 4, v 5, v 6, v 7, v 8, v 9, v 10, v 11, v 12, v 13, v 14, v 15] := by
      rw [adc_fifo_seq_cons n _ (v 1) _ { state := 16, data := [v 0, 0, 0, 0, 0, 0, 0, 0, 0, 0, 0, 0, 0, 0, 0, 0] } (fifoAt_setFifo _ _ _ hn)
          (by simp only [fifoPush_snd]; decide),
        setFifo_setFifo, fifoPush_eq 16 32 1 (by decide) (by decide) (by decide)]
      rfl
    have e3 : adc_fifo_write_seq (s.setFifo n { state := 32, data := [v 0, v 1, 0, 0, 0, 0, 0, 0, 0, 0, 0, 0, 0, 0, 0, 0] }) n [v 2, v 3, v 4, v 5, v 6, v 7, v 8, v 9, v 10, v 11, v 12, v 13, v 14, v 15] =
        adc_fifo_write_seq (s.setFifo n { state := 48, data := [v 0, v 1, v 2, 0, 0, 0, 0, 0, 0, 0, 0, 0, 0, 0, 0, 0] }) n [v 3, v 4, v 5, v 6, v 7, v 8, v 9, v 10, v 11, v 12, v 13, v 14, v 15] := by
      rw [adc_fifo_seq_cons n _ (v 2) _ { state := 32, data := [v 0, v 1, 0, 0, 0, 0, 0, 0, 0, 0, 0, 0, 0, 0, 0, 0] } (fifoAt_setFifo _ _ _ hn)
          (by simp only [fifoPush_snd]; decide),
        setFifo_setFifo, fifoPush_eq 32 48 2 (by decide) (by decide) (by decide)]
      rfl
    have e4 : adc_fifo_write_seq (s.setFifo n { state := 48, data := [v 0, v 1, v 2, 0, 0, 0, 0, 0, 0, 0, 0, 0, 0, 0, 0, 0] }) n [v 3, v 4, v 5, v 6, v 7, v 8, v 9, v 10, v 11, v 12, v 13, v 14, v 15] =
        adc_fifo_write_seq (s.setFifo n { state := 64, data := [v 0, v 1, v 2, v 3, 0, 0, 0, 0, 0, 0, 0, 0, 0, 0, 0, 0] }) n [v 4, v 5, v 6, v 7, v 8, v 9, v 10, v 11, v 12, v 13, v 14, v 15] := by
      rw [adc_fifo_seq_cons n _ (v 3) _ { state := 48, data := [v 0, v 1, v 2, 0, 0, 0, 0, 0, 0, 0, 0, 0, 0, 0, 0, 0] } (fifoAt_setFifo _ _ _ hn)
          (by simp only [fifoPush_snd]; decide),
        setFifo_setFifo, fifoPush_eq 48 64 3 (by decide) (by decide) (by decide)]
      rfl
    have e5 : adc_fifo_write_seq (s.setFifo n { state := 64, data := [v 0, v 1, v 2, v 3, 0, 0, 0, 0, 0, 0, 0, 0, 0, 0, 0, 0] }) n [v 4, v 5, v 6, v 7, v 8, v 9, v 10, v 11, v 12, v 13, v 14, v 15] =
        adc_fifo_write_seq (s.setFifo n { state := 80, data := [v 0, v 1, v 2, v 3, v 4, 0, 0, 0, 0, 0, 0, 0, 0, 0, 0, 0] }) n [v 5, v 6, v 7, v 8, v 9, v 10, v 11, v 12, v 13, v 14, v 15] := by
      rw [adc_fifo_seq_cons n _ (v 4) _ { state := 64, data := [v 0, v 1, v 2, v 3, 0, 0, 0, 0, 0, 0, 0, 0, 0, 0, 0, 0] } (fifoAt_setFifo _ _ _ hn)
          (by simp only [fifoPush_snd]; decide),
        setFifo_setFifo, fifoPush_eq 64 80 4 (by decide) (by decide) (by decide)]
      rfl
    have e6 : adc_fifo_write_seq (s.setFifo n { state := 80, data := [v 0, v 1, v 2, v 3, v 4, 0, 0, 0, 0, 0, 0, 0, 0, 0, 0, 0] }) n [v 5, v 6, v 7, v 8, v 9, v 10, v 11, v 12, v 13, v 14, v 15] =
        adc_fifo_write_seq (s.setFifo n { state := 96, data := [v 0, v 1, v 2, v 3, v 4, v 5, 0, 0, 0, 0, 0, 0, 0, 0, 0, 0] }) n [v 6, v 7, v 8, v 9, v 10, v 11, v 12, v 13, v 14, v 15] := by
      rw [adc_fifo_seq_cons n _ (v 5) _ { state := 80, data := [v 0, v 1, v 2, v 3, v 4, 0, 0, 0, 0, 0, 0, 0, 0, 0, 0, 0] } (fifoAt_setFifo _ _ _ hn)
          (by simp only [fifoPush_snd]; decide),
        setFifo_setFifo, fifoPush_eq 80 96 5 (by decide) (by decide) (by decide)]
      rfl
    have e7 : adc_fifo_write_seq (s.setFifo n { state := 96, data := [v 0, v 1, v 2, v 3, v 4, v 5, 0, 0, 0, 0, 0, 0, 0, 0, 0, 0] }) n [v 6, v 7, v 8, v 9, v 10, v 11, v 12, v 13, v 14, v 15] =
        adc_fifo_write_seq (s.setFifo n { state := 112, data := [v 0, v 1, v 2, v 3, v 4, v 5, v 6, 0, 0, 0, 0, 0, 0, 0, 0, 0] }) n [v 7, v 8, v 9, v 10, v 11, v 12, v 13, v 14, v 15] := by
      rw [adc_fifo_seq_cons n _ (v 6) _ { state := 96, data := [v 0, v 1, v 2, v 3, v 4, v 5, 0, 0, 0, 0, 0, 0, 0, 0, 0, 0] } (fifoAt_setFifo _ _ _ hn)
          (by simp only [fifoPush_snd]; decide),
        setFifo_setFifo, fifoPush_eq 96 112 6 (by decide) (by decide) (by decide)]
      rfl
    have e8 : adc_fifo_write_seq (s.setFifo n { state := 112, data := [v 0, v 1, v 2, v 3, v 4, v 5, v 6, 0, 0, 0, 0, 0, 0, 0, 0, 0] }) n [v 7, v 8, v 9, v 10, v 11, v 12, v 13, v 14, v 15] =
        adc_fifo_write_seq (s.setFifo n { state := 128, data := [v 0, v 1, v 2, v 3, v 4, v 5, v 6, v 7, 0, 0, 0, 0, 0, 0, 0, 0] }) n [v 8, v 9, v 10, v 11, v 12, v 13, v 14, v 15] := by
      rw [adc_fifo_seq_cons n _ (v 7) _ { state := 112, data := [v 0, v 1, v 2, v 3, v 4, v 5, v 6, 0, 0, 0, 0, 0, 0, 0, 0, 0] } (fifoAt_setFifo _ _ _ hn)
          (by simp only [fifoPush_snd]; decide),
        setFifo_setFifo, fifoPush_eq 112 128 7 (by decide) (by decide) (by decide)]
      rfl
    have e9 : adc_fifo_write_seq (s.setFifo n { state := 128, data := [v 0, v 1, v 2, v 3, v 4, v 5, v 6, v 7, 0, 0, 0, 0, 0, 0, 0, 0] }) n [v 8, v 9, v 10, v 11, v 12, v 13, v 14, v 15] =
        adc_fifo_write_seq (s.setFifo n { state := 144, data := [v 0, v 1, v 2, v 3, v 4, v 5, v 6, v 7, v 8, 0, 0, 0, 0, 0, 0, 0] }) n [v 9, v 10, v 11, v 12, v 13, v 14, v 15] := by
      rw [adc_fifo_seq_cons n _ (v 8) _ { state := 128, data := [v 0, v 1, v 2, v 3, v 4, v 5, v 6, v 7, 0, 0, 0, 0, 0, 0, 0, 0] } (fifoAt_setFifo _ _ _ hn)
          (by simp only [fifoPush_snd]; decide),
        setFifo_setFifo, fifoPush_eq 128 144 8 (by decide) (by decide) (by decide)]
      rfl
    have e10 : adc_fifo_write_seq (s.setFifo n { state := 144, data := [v 0, v 1, v 2, v 3, v 4, v 5, v 6, v 7, v 8, 0, 0, 0, 0, 0, 0, 0] }) n [v 9, v 10, v 11, v 12, v 13, v 14, v 15] =
        adc_fifo_write_seq (s.setFifo n { state := 160, data := [v 0, v 1, v 2, v 3, v 4, v 5, v 6, v 7, v 8, v 9, 0, 0, 0, 0, 0, 0] }) n [v 10, v 11, v 12, v 13, v 14, v 15] := by
      rw [adc_fifo_seq_cons n _ (v 9) _ { state := 144, data := [v 0, v 1, v 2, v 3, v 4, v 5, v 6, v 7, v 8, 0, 0, 0, 0, 0, 0, 0] } (fifoAt_setFifo _ _ _ hn)
          (by simp only [fifoPush_snd]; decide),
        setFifo_setFifo, fifoPush_eq 144 160 9 (by decide) (by decide) (by decide)]
      rfl
    have e11 : adc_fifo_write_seq (s.setFifo n { state := 160, data := [v 0, v 1, v 2, v 3, v 4, v 5, v 6, v 7, v 8, v 9, 0, 0, 0, 0, 0, 0] }) n [v 10, v 11, v 12, v 13, v 14, v 15] =
        adc_fifo_write_seq (s.setFifo n { state := 176, data := [v 0, v 1, v 2, v 3, v 4, v 5, v 6, v 7, v 8, v 9, v 10, 0, 0, 0, 0, 0] }) n [v 11, v 12, v 13, v 14, v 15] := by
      rw [adc_fifo_seq_cons n _ (v 10) _ { state := 160, data := [v 0, v 1, v 2, v 3, v 4, v 5, v 6, v 7, v 8, v 9, 0, 0, 0, 0, 0, 0] } (fifoAt_setFifo _ _ _ hn)
          (by simp only [fifoPush_snd]; decide),
        setFifo_setFifo, fifoPush_eq 160 176 10 (by decide) (by decide) (by decide)]
      rfl
    have e12 : adc_fifo_write_seq (s.setFifo n { state := 176, data := [v 0, v 1, v 2, v 3, v 4, v 5, v 6, v 7, v 8, v 9, v 10, 0, 0, 0, 0, 0] }) n [v 11, v 12, v 13, v 14, v 15] =
        adc_fifo_write_seq (s.setFifo n { state := 192, data := [v 0, v 1, v 2, v 3, v 4, v 5, v 6, v 7, v 8, v 9, v 10, v 11, 0, 0, 0, 0] }) n [v 12, v 13, v 14, v 15] := by
      rw [adc_fifo_seq_cons n _ (v 11) _ { state := 176, data := [v 0, v 1, v 2, v 3, v 4, v 5, v 6, v 7, v 8, v 9, v 10, 0, 0, 0, 0, 0] } (fifoAt_setFifo _ _ _ hn)
          (by simp only [fifoPush_snd]; decide),
        setFifo_setFifo, fifoPush_eq 176 192 11 (by decide) (by decide) (by decide)]
      rfl
    have e13 : adc_fifo_write_seq (s.setFifo n { state := 192, data := [v 0, v 1, v 2, v 3, v 4, v 5, v 6, v 7, v 8, v 9, v 10, v 11, 0, 0, 0, 0] }) n [v 12, v 13, v 14, v 15] =
        adc_fifo_write_seq (s.setFifo n { state := 208, data := [v 0, v 1, v 2, v 3, v 4, v 5, v 6, v 7, v 8, v 9, v 10, v 11, v 12, 0, 0, 0] }) n [v 13, v 14, v 15] := by
      rw [adc_fifo_seq_cons n _ (v 12) _ { state := 192, data := [v 0, v 1, v 2, v 3, v 4, v 5, v 6, v 7, v 8, v 9, v 10, v 11, 0, 0, 0, 0] } (fifoAt_setFifo _ _ _ hn)
          (by simp only [fifoPush_snd]; decide),
        setFifo_setFifo, fifoPush_eq 192 208 12 (by decide) (by decide) (by decide)]
      rfl
    have e14 : adc_fifo_write_seq (s.setFifo n { state := 208, data := [v 0, v 1, v 2, v 3, v 4, v 5, v 6, v 7, v 8, v 9, v 10, v 11, v 12, 0, 0, 0] }) n [v 13, v 14, v 15] =
        adc_fifo_write_seq (s.setFifo n { state := 224, data := [v 0, v 1, v 2, v 3, v 4, v 5, v 6, v 7, v 8, v 9, v 10, v 11, v 12, v 13, 0, 0] }) n [v 14, v 15] := by
      rw [adc_fifo_seq_cons n _ (v 13) _ { state := 208, data := [v 0, v 1, v 2, v 3, v 4, v 5, v 6, v 7, v 8, v 9, v 10, v 11, v 12, 0, 0, 0] } (fifoAt_setFifo _ _ _ hn)
          (by simp only [fifoPush_snd]; decide),
        setFifo_setFifo, fifoPush_eq 208 224 13 (by decide) (by decide) (by decide)]
      rfl
    have e15 : adc_fifo_write_seq (s.setFifo n { state := 224, data := [v 0, v 1, v 2, v 3, v 4, v 5, v 6, v 7, v 8, v 9, v 10, v 11, v 12, v 13, 0, 0] }) n [v 14, v 15] =
        adc_fifo_write_seq (s.setFifo n { state := 240, data := [v 0, v 1, v 2, v 3, v 4, v 5, v 6, v 7, v 8, v 9, v 10, v 11, v 12, v 13, v 14, 0] }) n [v 15] := by
      rw [adc_fifo_seq_cons n _ (v 14) _ { state := 224, data := [v 0, v 1, v 2, v 3, v 4, v 5, v 6, v 7, v 8, v 9, v 10, v 11, v 12, v 13, 0, 0] } (fifoAt_setFifo _ _ _ hn)
          (by simp only [fifoPush_snd]; decide),
        setFifo_setFifo, fifoPush_eq 224 240 14 (by decide) (by decide) (by decide)]
      rfl
    have e16 : adc_fifo_write_seq (s.setFifo n { state := 240, data := [v 0, v 1, v 2, v 3, v 4, v 5, v 6, v 7, v 8, v 9, v 10, v 11, v 12, v 13, v 14, 0] }) n [v 15] =
        adc_fifo_write_seq (s.setFifo n { state := 4096, data := [v 0, v 1, v 2, v 3, v 4, v 5, v 6, v 7, v 8, v 9, v 10, v 11, v 12, v 13, v 14, v 15] }) n [] := by
      rw [adc_fifo_seq_cons n _ (v 15) _ { state := 240, data := [v 0, v 1, v 2, v 3, v 4, v 5, v 6, v 7, v 8, v 9, v 10, v 11, v 12, v 13, v 14, 0] } (fifoAt_setFifo _ _ _ hn)
          (by simp only [fifoPush_snd]; decide),
        setFifo_setFifo, fifoPush_eq 240 4096 15 (by decide) (by decide) (by decide)]
      rfl
    have hseq : adc_fifo_write_seq s n [v 0, v 1, v 2, v 3, v 4, v 5, v 6, v 7, v 8, v 9, v 10, v 11, v 12, v 13, v 14, v 15] =
        s.setFifo n { state := 4096, data := [v 0, v 1, v 2, v 3, v 4, v 5, v 6, v 7, v 8, v 9, v 10, v 11, v 12, v 13, v 14, v 15] } := by
      rw [e1, e2, e3, e4, e5, e6, e7, e8, e9, e10, e11, e12, e13, e14, e15, e16]
      rfl
    rw [hseq]
    refine ⟨?_, ?_, ?_⟩
    · rw [fifoAt_setFifo _ _ _ hn]
    · rw [fifoAt_setFifo _ _ _ hn]
      rfl
    · rw [adc_fifo_write_eq, fifoAt_setFifo _ _ _ hn,
        if_pos (show ((fifoPush { state := 4096, data := [v 0, v 1, v 2, v 3, v 4, v 5, v 6, v 7, v 8, v 9, v 10, v 11, v 12, v 13, v 14, v 15] } (v 16)).snd = true) from by
          simp only [fifoPush_snd]; decide)]
  · intro s n hn hempty
    simp only [stm32_adc_fifo_read]
    rw [if_pos hempty]

/-- Witness for C8: 17 identical samples into sequencer 0 of the reset
engine, and a stale read from empty sequencer 2. -/
theorem c8_witness :
    ((adc_fifo_write_seq adcEx 0 [7, 7, 7, 7, 7, 7, 7, 7, 7, 7, 7, 7, 7, 7, 7, 7]).fifoAt 0).data =
      [7, 7, 7, 7, 7, 7, 7, 7, 7, 7, 7, 7, 7, 7, 7, 7] ∧
    stm32_adc_fifo_read adcEx 2 =
      ({ adcEx with ustat := adcEx.ustat ||| (1 <<< 2) },
       (adcEx.fifoAt 2).data.getD ((adcEx.fifoAt 2).state &&& 0xf) 0) := by
  obtain ⟨h1, h2⟩ := c8_adc_fifo_overflow_underflow
  exact ⟨(h1 adcEx 0 (fun _ => 7) _ (by decide) rfl rfl).1,
    h2 adcEx 2 (by decide) (by decide)⟩

/-! ## C3: RTC mode period and counter range -/

/-- The combined 32-bit RTC match value, as `gptm_tick` computes it. -/
def gptm_rtc_match (s : GptmState) : Nat := u32 (s.match0 ||| u32 (s.match1 <<< 16))

/-- One guest-visible RTC cycle: the timer fires, then the guest clears
the RTC-match raw-status bit through the CR register (offset 0x24). -/
def rtcCycle (scale : Int) (s : GptmState) : Option GptmState :=
  (gptm_fire scale s 0).bind fun t => gptm_write scale 0 t 0x24 8

/-- `k` RTC cycles in sequence. -/
def rtcRun (scale : Int) (s : GptmState) : Nat → Option GptmState
  | 0 => some s
  | k + 1 => (rtcRun scale s k).bind (rtcCycle scale)

theorem succ_mod_eq_zero_iff (k M : Nat) : (k + 1) % (M + 1) = 0 ↔ k % (M + 1) = M := by
  have hpos : 0 < M + 1 := Nat.succ_pos M
  have hr : k % (M + 1) < M + 1 := Nat.mod_lt _ hpos
  constructor
  · intro h
    have h2 : (k % (M + 1) + 1) % (M + 1) = 0 := by rwa [Nat.mod_add_mod]
    by_contra hne
    have hlt : k % (M + 1) + 1 < M + 1 := by omega
    rw [Nat.mod_eq_of_lt hlt] at h2
    omega
  · intro h
    have h2 : (k + 1) % (M + 1) = (k % (M + 1) + 1) % (M + 1) := by
      rw [Nat.mod_add_mod]
    rw [h2, h, Nat.mod_self]

theorem rtc_fire_step (scale : Int) (s : GptmState) (hcfg : s.config = 1)
    (hle : s.rtc ≤ gptm_rtc_match s) :
    ∃ t, gptm_fire scale s 0 = some t ∧
      t.rtc = (s.rtc + 1) % (gptm_rtc_match s + 1) ∧
      t.config = 1 ∧ t.match0 = s.match0 ∧ t.match1 = s.match1 ∧
      (t.state &&& 8 ≠ 0 ↔ (s.state &&& 8 ≠ 0 ∨ s.rtc = gptm_rtc_match s)) := by
  have hM32 : gptm_rtc_match s < 4294967296 := Nat.mod_lt _ (by norm_num)
  have hm : u32 (s.match0 ||| u32 (s.match1 <<< 16)) = gptm_rtc_match s := rfl
  have h8 : ∀ x : Nat, (x ||| 8) &&& 8 ≠ 0 := by
    intro x
    rw [lor_and_self]
    decide
  rcases lt_or_eq_of_le hle with hlt | heq
  · have h1 : u32 (s.rtc + 1) = s.rtc + 1 := u32_eq_of_lt (by omega)
    have h2 : ¬ s.rtc + 1 > gptm_rtc_match s := by omega
    have h3 : ¬ s.rtc + 1 = 0 := by omega
    have h4 : (s.rtc + 1) % (gptm_rtc_match s + 1) = s.rtc + 1 :=
      Nat.mod_eq_of_lt (by omega)
    have h5 : ¬ s.rtc = gptm_rtc_match s := by omega
    unfold gptm_fire gptm_tick gptm_reload gptm_set_tick gptm_update_irq
    simp [hcfg, hm, h1, h2, h3, h4, h5]
  · by_cases hbig : gptm_rtc_match s + 1 = 4294967296
    · have h1 : u32 (gptm_rtc_match s + 1) = 0 := by
        unfold u32
        omega
      unfold gptm_fire gptm_tick gptm_reload gptm_set_tick gptm_update_irq
      simp [hcfg, hm, heq, h1, h8, Nat.mod_self]
    · have h1 : u32 (gptm_rtc_match s + 1) = gptm_rtc_match s + 1 :=
        u32_eq_of_lt (by omega)
      unfold gptm_fire gptm_tick gptm_reload gptm_set_tick gptm_update_irq
      simp [hcfg, hm, heq, h1, h8, Nat.mod_self, Nat.lt_succ_self]

theorem rtc_fire_bit (scale : Int) (t : GptmState) (hcfg : t.config = 1)
    (hle : t.rtc ≤ gptm_rtc_match t) (hbit : t.state &&& 8 = 0) :
    ∀ u, gptm_fire scale t 0 = some u →
      (u.state &&& 8 ≠ 0 ↔ t.rtc = gptm_rtc_match t) := by
  intro u hu
  obtain ⟨u', hu', _, _, _, _, hiff⟩ := rtc_fire_step scale t hcfg hle
  rw [hu'] at hu
  cases hu
  simpa [hbit] using hiff

/-- C3: in RTC mode (`config = 1`), starting from `rtcCounter = 0` with
the RTC-match raw-status bit (bit 3) clear, and clearing the bit after
each fire, after `k` cycles `rtcCounter = k mod (M+1)` where `M` is the
combined match value — so the counter always stays in `[0, M]`, each
fire increments it modulo `M+1`, and the fire of cycle `k+1` sets the
raw-status RTC-match bit exactly when `M+1` divides `k+1`, i.e. exactly
every `M+1` one-second ticks. -/
theorem c3_rtc_match_period (scale : Int) (s : GptmState)
    (hcfg : s.config = 1) (h0 : s.rtc = 0) (hbit : s.state &&& 8 = 0) :
    ∀ k, ∃ t, rtcRun scale s k = some t ∧
      t.rtc = k % (gptm_rtc_match s + 1) ∧ t.rtc ≤ gptm_rtc_match s ∧
      t.config = 1 ∧ t.match0 = s.match0 ∧ t.match1 = s.match1 ∧
      t.state &&& 8 = 0 ∧
      ∀ u, gptm_fire scale t 0 = some u →
        (u.state &&& 8 ≠ 0 ↔ (k + 1) % (gptm_rtc_match s + 1) = 0) := by
  have hpos : 0 < gptm_rtc_match s + 1 := Nat.succ_pos _
  have hcr : ∀ w : GptmState, gptm_write scale 0 w 0x24 8 =
      some (gptm_update_irq { w with state := w.state &&& compl32 8 }) := by
    intro w
    simp [gptm_write]
  have hgen : ∀ (t : GptmState) (k : Nat), t.config = 1 → t.match0 = s.match0 →
      t.match1 = s.match1 → t.rtc = k % (gptm_rtc_match s + 1) → t.state &&& 8 = 0 →
      ∀ u, gptm_fire scale t 0 = some u →
        (u.state &&& 8 ≠ 0 ↔ (k + 1) % (gptm_rtc_match s + 1) = 0) := by
    intro t k hc hm0 hm1 hr hb u hu
    have hMeq : gptm_rtc_match t = gptm_rtc_match s := by
      unfold gptm_rtc_match
      rw [hm0, hm1]
    have hle : t.rtc ≤ gptm_rtc_match t := by
      rw [hMeq, hr]
      exact Nat.lt_succ_iff.mp (Nat.mod_lt _ hpos)
    rw [rtc_fire_bit scale t hc hle hb u hu, hMeq, hr]
    exact (succ_mod_eq_zero_iff k (gptm_rtc_match s)).symm
  intro k
  induction k with
  | zero =>
    refine ⟨s, rfl, by simp [h0], by simp [h0], hcfg, rfl, rfl, hbit, ?_⟩
    exact hgen s 0 hcfg rfl rfl (by simp [h0]) hbit
  | succ k ih =>
    obtain ⟨t, ht, hrtc, hle', hcfg', hm0, hm1, hbit', _⟩ := ih
    have hMeq : gptm_rtc_match t = gptm_rtc_match s := by
      unfold gptm_rtc_match
      rw [hm0, hm1]
    obtain ⟨u, hu, hurtc, hucfg, hum0, hum1, _⟩ :=
      rtc_fire_step scale t hcfg' (by rw [hMeq]; exact hle')
    have hrun : rtcRun scale s (k + 1) =
        some (gptm_update_irq { u with state := u.state &&& compl32 8 }) := by
      show (rtcRun scale s k).bind (rtcCycle scale) = _
      rw [ht]
      show rtcCycle scale t = _
      unfold rtcCycle
      rw [hu]
      show gptm_write scale 0 u 0x24 8 = _
      exact hcr u
    have hurtc2 : u.rtc = (k + 1) % (gptm_rtc_match s + 1) := by
      rw [hurtc, hMeq, hrtc, Nat.mod_add_mod]
    refine ⟨_, hrun, ?_, ?_, ?_, ?_, ?_, ?_, ?_⟩
    · exact hurtc2
    · rw [show (gptm_update_irq { u with state := u.state &&& compl32 8 }).rtc = u.rtc
        from rfl, hurtc2]
      exact Nat.lt_succ_iff.mp (Nat.mod_lt _ hpos)
    · rw [show (gptm_update_irq { u with state := u.state &&& compl32 8 }).config = u.config
        from rfl, hucfg]
    · rw [show (gptm_update_irq { u with state := u.state &&& compl32 8 }).match0 = u.match0
        from rfl, hum0, hm0]
    · rw [show (gptm_update_irq { u with state := u.state &&& compl32 8 }).match1 = u.match1
        from rfl, hum1, hm1]
    · show (u.state &&& compl32 8) &&& 8 = 0
      exact and_and_right_zero (by decide) u.state
    · refine hgen _ (k + 1) ?_ ?_ ?_ ?_ ?_
      · show u.config = 1
        exact hucfg
      · show u.match0 = s.match0
        rw [hum0, hm0]
      · show u.match1 = s.match1
        rw [hum1, hm1]
      · show u.rtc = (k + 1) % (gptm_rtc_match s + 1)
        exact hurtc2
      · show (u.state &&& compl32 8) &&& 8 = 0
        exact and_and_right_zero (by decide) u.state

/-- A timer in RTC mode with combined match value 1. -/
def gptmExRtcM : GptmState := { gptmEx0 with config := 1, match0 := 1 }

/-- Witness for C3: three cycles of the match-1 RTC timer. -/
theorem c3_witness :
    ∃ t, rtcRun 5 gptmExRtcM 3 = some t ∧
      t.rtc = 3 % (gptm_rtc_match gptmExRtcM + 1) ∧
      t.rtc ≤ gptm_rtc_match gptmExRtcM ∧
      t.config = 1 ∧ t.match0 = gptmExRtcM.match0 ∧ t.match1 = gptmExRtcM.match1 ∧
      t.state &&& 8 = 0 ∧
      ∀ u, gptm_fire 5 t 0 = some u →
        (u.state &&& 8 ≠ 0 ↔ (3 + 1) % (gptm_rtc_match gptmExRtcM + 1) = 0) :=
  c3_rtc_match_period 5 gptmExRtcM rfl rfl (by decide) 3

/-! ## C7: ADC trigger behaviour -/

/-- One advance of the linear-congruential noise accumulator, in 32-bit
arithmetic. -/
def lcgStep (x : Nat) : Nat := u32 (x * 314159 + 1)

/-- Whether `stm32_adc_trigger` reacts to sequencer `n`: the sequencer is
active and the 8-bit field the source actually masks out of `emux`
equals 5. -/
def adcTriggeredB (s : AdcState) (n : Nat) : Bool :=
  (s.actss &&& (1 <<< n) != 0) && ((s.emux >>> (n * 4)) &&& 0xff == 5)

/-- The number of triggered sequencers with index below `n`. -/
def adcTrigCount (s : AdcState) (n : Nat) : Nat :=
  (List.range n).countP (adcTriggeredB s)

theorem adcTriggeredB_iff (s : AdcState) (n : Nat) :
    adcTriggeredB s n = true ↔
      (s.actss &&& (1 <<< n) ≠ 0 ∧ (s.emux >>> (n * 4)) &&& 0xff = 5) := by
  unfold adcTriggeredB
  simp

theorem adcTrigCount_succ (s : AdcState) (n : Nat) :
    adcTrigCount s (n + 1) =
      adcTrigCount s n + (if adcTriggeredB s n then 1 else 0) := by
  unfold adcTrigCount
  rw [List.range_succ, List.countP_append]
  simp [List.countP_cons]

theorem one_shiftLeft_ne_zero (n : Nat) : (1 <<< n) ≠ 0 := by
  rw [Nat.one_shiftLeft]
  exact pow_ne_zero n (by norm_num)

theorem one_shiftLeft_and_ne {m k : Nat} (hne : m ≠ k) :
    (1 <<< m) &&& (1 <<< k) = 0 := by
  rw [Nat.one_shiftLeft, Nat.one_shiftLeft]
  apply Nat.eq_of_testBit_eq
  intro i
  simp only [Nat.testBit_and, Nat.testBit_two_pow, Nat.zero_testBit]
  by_cases hm : m = i <;> by_cases hk : k = i <;> simp_all

theorem fifoAt_eq_of_fields {a b : AdcState} (h0 : a.fifo0 = b.fifo0)
    (h1 : a.fifo1 = b.fifo1) (h2 : a.fifo2 = b.fifo2) (h3 : a.fifo3 = b.fifo3)
    (k : Nat) : a.fifoAt k = b.fifoAt k := by
  unfold AdcState.fifoAt
  split_ifs <;> assumption

theorem fifoAt_setFifo_ne (s : AdcState) (m k : Nat) (f : AdcFifo)
    (hm : m < 4) (hk : k < 4) (hne : m ≠ k) :
    (s.setFifo m f).fifoAt k = s.fifoAt k := by
  unfold AdcState.setFifo AdcState.fifoAt
  interval_cases m <;> interval_cases k <;> simp_all

theorem adc_fifo_write_frame (s : AdcState) (n v : Nat) :
    (stm32_adc_fifo_write s n v).actss = s.actss ∧
    (stm32_adc_fifo_write s n v).emux = s.emux ∧
    (stm32_adc_fifo_write s n v).ris = s.ris ∧
    (stm32_adc_fifo_write s n v).noise = s.noise := by
  rw [adc_fifo_write_eq]
  split_ifs
  · exact ⟨rfl, rfl, rfl, rfl⟩
  · unfold AdcState.setFifo
    split_ifs <;> exact ⟨rfl, rfl, rfl, rfl⟩

theorem fifoPush_fst_of_full (f : AdcFifo) (x : Nat)
    (h : (fifoPush f x).snd = true) : (fifoPush f x).fst = f := by
  unfold fifoPush at h ⊢
  split_ifs at h ⊢ <;> simp_all

theorem adc_fifo_write_fifoAt_ne (s : AdcState) (m k v : Nat)
    (hm : m < 4) (hk : k < 4) (hne : m ≠ k) :
    (stm32_adc_fifo_write s m v).fifoAt k = s.fifoAt k := by
  rw [adc_fifo_write_eq]
  split_ifs
  · exact fifoAt_eq_of_fields rfl rfl rfl rfl k
  · exact fifoAt_setFifo_ne s m k _ hm hk hne

theorem adc_fifo_write_fifoAt_self (s : AdcState) (n v : Nat) (hn : n < 4) :
    (stm32_adc_fifo_write s n v).fifoAt n = (fifoPush (s.fifoAt n) v).fst := by
  rw [adc_fifo_write_eq]
  split_ifs with h
  · rw [fifoPush_fst_of_full _ _ h]
    exact fifoAt_eq_of_fields rfl rfl rfl rfl n
  · rw [fifoAt_setFifo _ _ _ hn]

theorem adc_trigger_step_of_not (s : AdcState) (n : Nat)
    (h : adcTriggeredB s n = false) : adc_trigger_step s n = s := by
  unfold adc_trigger_step
  by_cases h1 : s.actss &&& (1 <<< n) = 0
  · simp [h1]
  · have h2 : ¬ (s.emux >>> (n * 4)) &&& 0xff = 5 := by
      unfold adcTriggeredB at h
      simp [h1] at h
      exact h
    simp [h1, h2]

theorem adc_trigger_step_of_trig (s : AdcState) (n : Nat)
    (h : adcTriggeredB s n = true) :
    adc_trigger_step s n =
      stm32_adc_update { stm32_adc_fifo_write { s with noise := lcgStep s.noise } n
          (0x200 + ((lcgStep s.noise >>> 16) &&& 7)) with
        ris := (stm32_adc_fifo_write { s with noise := lcgStep s.noise } n
          (0x200 + ((lcgStep s.noise >>> 16) &&& 7))).ris ||| (1 <<< n) } := by
  obtain ⟨h1, h2⟩ := (adcTriggeredB_iff s n).mp h
  unfold adc_trigger_step lcgStep
  simp [h1, h2]

theorem adc_trigger_step_actss_emux (s : AdcState) (m : Nat) :
    (adc_trigger_step s m).actss = s.actss ∧ (adc_trigger_step s m).emux = s.emux := by
  by_cases h : adcTriggeredB s m
  · rw [adc_trigger_step_of_trig s m h]
    constructor
    · show (stm32_adc_fifo_write _ m _).actss = s.actss
      rw [(adc_fifo_write_frame _ m _).1]
    · show (stm32_adc_fifo_write _ m _).emux = s.emux
      rw [(adc_fifo_write_frame _ m _).2.1]
  · rw [adc_trigger_step_of_not s m (by simpa using h)]
    exact ⟨rfl, rfl⟩

theorem adcTriggeredB_step (s : AdcState) (m k : Nat) :
    adcTriggeredB (adc_trigger_step s m) k = adcTriggeredB s k := by
  unfold adcTriggeredB
  rw [(adc_trigger_step_actss_emux s m).1, (adc_trigger_step_actss_emux s m).2]

theorem adc_trigger_step_noise (s : AdcState) (m : Nat) :
    (adc_trigger_step s m).noise =
      if adcTriggeredB s m then lcgStep s.noise else s.noise := by
  by_cases h : adcTriggeredB s m
  · rw [adc_trigger_step_of_trig s m h, if_pos h]
    show (stm32_adc_fifo_write _ m _).noise = lcgStep s.noise
    rw [(adc_fifo_write_frame _ m _).2.2.2]
  · rw [adc_trigger_step_of_not s m (by simpa using h), if_neg h]

theorem fifoAt_update (x : AdcState) (k : Nat) :
    (stm32_adc_update x).fifoAt k = x.fifoAt k :=
  fifoAt_eq_of_fields rfl rfl rfl rfl k

theorem fifoAt_set_ris (x : AdcState) (r k : Nat) :
    ({ x with ris := r } : AdcState).fifoAt k = x.fifoAt k :=
  fifoAt_eq_of_fields rfl rfl rfl rfl k

theorem fifoAt_set_noise (x : AdcState) (v k : Nat) :
    ({ x with noise := v } : AdcState).fifoAt k = x.fifoAt k :=
  fifoAt_eq_of_fields rfl rfl rfl rfl k

theorem adc_trigger_step_fifoAt_ne (s : AdcState) (m k : Nat)
    (hm : m < 4) (hk : k < 4) (hne : m ≠ k) :
    (adc_trigger_step s m).fifoAt k = s.fifoAt k := by
  by_cases h : adcTriggeredB s m
  · rw [adc_trigger_step_of_trig s m h, fifoAt_update, fifoAt_set_ris,
      adc_fifo_write_fifoAt_ne _ m k _ hm hk hne, fifoAt_set_noise]
  · rw [adc_trigger_step_of_not s m (by simpa using h)]

theorem adc_trigger_step_ris_ne (s : AdcState) (m k : Nat) (hne : m ≠ k) :
    (adc_trigger_step s m).ris &&& (1 <<< k) = s.ris &&& (1 <<< k) := by
  by_cases h : adcTriggeredB s m
  · rw [adc_trigger_step_of_trig s m h]
    show ((stm32_adc_fifo_write _ m _).ris ||| (1 <<< m)) &&& (1 <<< k) = _
    rw [and_lor_cancel (one_shiftLeft_and_ne hne),
      (adc_fifo_write_frame _ m _).2.2.1]
  · rw [adc_trigger_step_of_not s m (by simpa using h)]

theorem adc_trigger_step_ris_self (s : AdcState) (n : Nat)
    (h : adcTriggeredB s n = true) :
    (adc_trigger_step s n).ris &&& (1 <<< n) ≠ 0 := by
  rw [adc_trigger_step_of_trig s n h]
  show ((stm32_adc_fifo_write _ n _).ris ||| (1 <<< n)) &&& (1 <<< n) ≠ 0
  rw [lor_and_self]
  exact one_shiftLeft_ne_zero n

theorem adc_trigger_step_fifoAt_self (s : AdcState) (n : Nat) (hn : n < 4)
    (h : adcTriggeredB s n = true) :
    (adc_trigger_step s n).fifoAt n =
      (fifoPush (s.fifoAt n) (0x200 + ((lcgStep s.noise >>> 16) &&& 7))).fst := by
  rw [adc_trigger_step_of_trig s n h, fifoAt_update, fifoAt_set_ris,
    adc_fifo_write_fifoAt_self _ n _ hn, fifoAt_set_noise]

theorem adcTriggeredB_fold (l : List Nat) (s : AdcState) (k : Nat) :
    adcTriggeredB (l.foldl adc_trigger_step s) k = adcTriggeredB s k := by
  induction l generalizing s with
  | nil => rfl
  | cons a t ih =>
    rw [List.foldl_cons, ih, adcTriggeredB_step]

theorem adc_trigger_fold_noise (l : List Nat) (s : AdcState) :
    (l.foldl adc_trigger_step s).noise =
      lcgStep^[l.countP (adcTriggeredB s)] s.noise := by
  induction l generalizing s with
  | nil => rfl
  | cons a t ih =>
    rw [List.foldl_cons, ih, List.countP_cons]
    have hc : t.countP (adcTriggeredB (adc_trigger_step s a)) =
        t.countP (adcTriggeredB s) :=
      List.countP_congr (fun x _ => by rw [adcTriggeredB_step])
    rw [hc, adc_trigger_step_noise]
    by_cases h : adcTriggeredB s a
    · rw [if_pos h, if_pos h, Function.iterate_succ_apply]
    · rw [if_neg h, if_neg h, Nat.add_zero]

theorem adc_trigger_fold_frame (l : List Nat) (s : AdcState) (k : Nat) (hk : k < 4)
    (hl : ∀ m ∈ l, m < 4) (hnot : k ∉ l) :
    (l.foldl adc_trigger_step s).fifoAt k = s.fifoAt k ∧
    (l.foldl adc_trigger_step s).ris &&& (1 <<< k) = s.ris &&& (1 <<< k) := by
  induction l generalizing s with
  | nil => exact ⟨rfl, rfl⟩
  | cons a t ih =>
    have ha : a < 4 := hl a (List.mem_cons_self a t)
    have hne : a ≠ k := fun he => hnot (he ▸ List.mem_cons_self a t)
    have ht : ∀ m ∈ t, m < 4 := fun m hm => hl m (List.mem_cons_of_mem a hm)
    have hnt : k ∉ t := fun hm => hnot (List.mem_cons_of_mem a hm)
    obtain ⟨ih1, ih2⟩ := ih (adc_trigger_step s a) ht hnt
    rw [List.foldl_cons]
    exact ⟨ih1.trans (adc_trigger_step_fifoAt_ne s a k ha hk hne),
      ih2.trans (adc_trigger_step_ris_ne s a k hne)⟩

theorem adc_trigger_split (s : AdcState) (n : Nat) (hn : n < 4)
    (pre post : List Nat) (hsplit : List.range 4 = pre ++ n :: post)
    (hpre : ∀ m ∈ pre, m < 4) (hpren : n ∉ pre)
    (hpost : ∀ m ∈ post, m < 4) (hpostn : n ∉ post)
    (hcount : pre.countP (adcTriggeredB s) = adcTrigCount s n) :
    (adcTriggeredB s n = false →
      (stm32_adc_trigger s).fifoAt n = s.fifoAt n ∧
      (stm32_adc_trigger s).ris &&& (1 <<< n) = s.ris &&& (1 <<< n)) ∧
    (adcTriggeredB s n = true →
      (stm32_adc_trigger s).ris &&& (1 <<< n) ≠ 0 ∧
      (stm32_adc_trigger s).fifoAt n =
        (fifoPush (s.fifoAt n)
          (0x200 + ((lcgStep^[adcTrigCount s (n + 1)] s.noise >>> 16) &&& 7))).fst) := by
  have hun : stm32_adc_trigger s =
      post.foldl adc_trigger_step (adc_trigger_step (pre.foldl adc_trigger_step s) n) := by
    unfold stm32_adc_trigger
    rw [hsplit, List.foldl_append, List.foldl_cons]
  obtain ⟨hpf, hpr⟩ := adc_trigger_fold_frame pre s n hn hpre hpren
  have htrigB : adcTriggeredB (pre.foldl adc_trigger_step s) n = adcTriggeredB s n :=
    adcTriggeredB_fold pre s n
  have hnoise1 : (pre.foldl adc_trigger_step s).noise =
      lcgStep^[adcTrigCount s n] s.noise := by
    rw [adc_trigger_fold_noise, hcount]
  constructor
  · intro hf
    have hid : adc_trigger_step (pre.foldl adc_trigger_step s) n =
        pre.foldl adc_trigger_step s :=
      adc_trigger_step_of_not _ n (htrigB.trans hf)
    rw [hun, hid]
    obtain ⟨h1, h2⟩ :=
      adc_trigger_fold_frame post (pre.foldl adc_trigger_step s) n hn hpost hpostn
    exact ⟨h1.trans hpf, h2.trans hpr⟩
  · intro ht
    have htrig1 : adcTriggeredB (pre.foldl adc_trigger_step s) n = true :=
      htrigB.trans ht
    obtain ⟨h1, h2⟩ := adc_trigger_fold_frame post
      (adc_trigger_step (pre.foldl adc_trigger_step s) n) n hn hpost hpostn
    constructor
    · rw [hun, h2]
      exact adc_trigger_step_ris_self _ n htrig1
    · rw [hun, h1, adc_trigger_step_fifoAt_self _ n hn htrig1, hpf, hnoise1,
        adcTrigCount_succ, if_pos ht, Function.iterate_succ_apply']

/-- C7 (amended): on an ADC trigger pulse, for every sequencer `n` that
is active and whose 8-bit field `(emux >> (4*n)) & 0xff` — the mask the
source actually applies, not the 4-bit trigger-source field — equals 5
(the "timer" source), the engine advances the noise accumulator once by
`noise * 314159 + 1` per such sequencer in index order, pushes the
pseudo-sample `0x200 + ((noise >> 16) & 7)` derived from the advanced
accumulator into sequencer `n`'s FIFO, and sets sequencer `n`'s
raw-interrupt bit; sequencers not satisfying that condition keep their
FIFO and raw-interrupt bit unchanged. -/
theorem c7_adc_trigger_behaviour (s : AdcState) (n : Nat) (hn : n < 4) :
    (stm32_adc_trigger s).noise = lcgStep^[adcTrigCount s 4] s.noise ∧
    (adcTriggeredB s n = false →
      (stm32_adc_trigger s).fifoAt n = s.fifoAt n ∧
      (stm32_adc_trigger s).ris &&& (1 <<< n) = s.ris &&& (1 <<< n)) ∧
    (adcTriggeredB s n = true →
      (stm32_adc_trigger s).ris &&& (1 <<< n) ≠ 0 ∧
      (stm32_adc_trigger s).fifoAt n =
        (fifoPush (s.fifoAt n)
          (0x200 + ((lcgStep^[adcTrigCount s (n + 1)] s.noise >>> 16) &&& 7))).fst) := by
  refine ⟨adc_trigger_fold_noise (List.range 4) s, ?_⟩
  interval_cases n
  · exact adc_trigger_split s 0 (by norm_num) [] [1, 2, 3] (by decide)
      (by decide) (by decide) (by decide) (by decide) rfl
  · exact adc_trigger_split s 1 (by norm_num) [0] [2, 3] (by decide)
      (by decide) (by decide) (by decide) (by decide) rfl
  · exact adc_trigger_split s 2 (by norm_num) [0, 1] [3] (by decide)
      (by decide) (by decide) (by decide) (by decide) rfl
  · exact adc_trigger_split s 3 (by norm_num) [0, 1, 2] [] (by decide)
      (by decide) (by decide) (by decide) (by decide) rfl

/-- The counterexample state for C7 as originally stated: sequencer 0 is
active and its 4-bit trigger-source field is 5, but the neighbouring
nibble makes the source's 8-bit comparison fail. -/
def adcEx7 : AdcState := { adcEx with actss := 1, emux := 0x55 }

/-- Counterexample to C7 as stated: sequencer 0 is active with its 4-bit
trigger-source field equal to 5 (timer), yet a trigger pulse changes
nothing — no FIFO write, no raw-interrupt bit — because the source
compares the 8-bit value `(emux >> 0) & 0xff = 0x55` against 5. -/
theorem c7_counterexample :
    adcEx7.actss &&& (1 <<< 0) ≠ 0 ∧
    (adcEx7.emux >>> (0 * 4)) &&& 0xf = 5 ∧
    stm32_adc_trigger adcEx7 = adcEx7 ∧
    (stm32_adc_trigger adcEx7).ris &&& (1 <<< 0) = 0 := by
  refine ⟨by decide, by decide, by decide, by decide⟩

/-- A state whose sequencer 0 really is triggered under the 8-bit test. -/
def adcEx8 : AdcState := { adcEx with actss := 3, emux := 0x05 }

/-- Witness for C7 at the concrete triggered state. -/
theorem c7_witness :
    (stm32_adc_trigger adcEx8).noise = lcgStep^[adcTrigCount adcEx8 4] adcEx8.noise ∧
    (adcTriggeredB adcEx8 0 = false →
      (stm32_adc_trigger adcEx8).fifoAt 0 = adcEx8.fifoAt 0 ∧
      (stm32_adc_trigger adcEx8).ris &&& (1 <<< 0) = adcEx8.ris &&& (1 <<< 0)) ∧
    (adcTriggeredB adcEx8 0 = true →
      (stm32_adc_trigger adcEx8).ris &&& (1 <<< 0) ≠ 0 ∧
      (stm32_adc_trigger adcEx8).fifoAt 0 =
        (fifoPush (adcEx8.fifoAt 0)
          (0x200 + ((lcgStep^[adcTrigCount adcEx8 (0 + 1)] adcEx8.noise >>> 16) &&& 7))).fst) :=
  c7_adc_trigger_behaviour adcEx8 0 (by norm_num)

end Stm32
